import Mathlib

/-!
# water: configuration merge and Windows device set-up

A shallow embedding of `params.go` (the `baseOn` merge of platform specific
parameters) and of `syscalls_windows.go` (registry look-up of the TAP adapter,
the device-control payloads and `openDev`).

Conventions of the embedding

* a Go `string` is a Lean `String`; the address parsers only ever inspect
  ASCII bytes, so they work on the list of characters;
* a Go `[]byte` / `net.IP` / `net.IPMask` is a `List Nat` of bytes, and a
  possibly-nil slice is an `Option (List Nat)`;
* operating-system calls (registry, `CreateFile`, `DeviceIoControl`,
  `CreateEventW`, `net.Interfaces`) are fields of an explicit `World`, and every
  call with an effect on the device handle is recorded in a trace of `Event`s;
* a Go run-time panic is an explicit outcome.
-/

namespace Water

/-! ## params.go -/

/-- Go `type MacOSDriverProvider int`. -/
abbrev MacOSDriverProvider := Int

/-- The default P2P driver, `MacOSDriverSystem MacOSDriverProvider = 0`. -/
def MacOSDriverSystem : MacOSDriverProvider := 0

/-- The third-party tuntaposx driver, `MacOSDriverTunTapOSX = 1`. -/
def MacOSDriverTunTapOSX : MacOSDriverProvider := 1

/-- Go `type DevicePermissions struct { Owner uint; Group uint }`. -/
structure DevicePermissions where
  Owner : Nat
  Group : Nat
  deriving DecidableEq, Repr

/-- Go `type PlatformSpecificParams struct`.  The pointer field `Permissions`
is `none` for `nil`. -/
structure PlatformSpecificParams where
  Name : String
  Driver : MacOSDriverProvider
  Persist : Bool
  Permissions : Option DevicePermissions
  MultiQueue : Bool
  ComponentID : String
  Network : String
  IsDHCP : Bool
  DHCPServer : String
  DNS1 : String
  DNS2 : String
  deriving DecidableEq, Repr

/-- Go `var defaultPlatformSpecificParams`: every field not listed is the zero
value of its type. -/
def defaultPlatformSpecificParams : PlatformSpecificParams :=
  { Name := "", Driver := 0, Persist := false, Permissions := none,
    MultiQueue := false, ComponentID := "tap0901", Network := "192.168.56.2/24",
    IsDHCP := false, DHCPServer := "", DNS1 := "", DNS2 := "" }

/-- Go `func (p PlatformSpecificParams) baseOn(custom PlatformSpecificParams)`:
`res := p` followed by eleven guarded assignments, in source order. -/
def PlatformSpecificParams.baseOn (p custom : PlatformSpecificParams) :
    PlatformSpecificParams :=
  let res := p
  let res := if custom.Name != "" then { res with Name := custom.Name } else res
  let res := if custom.Driver != MacOSDriverSystem then
    { res with Driver := custom.Driver } else res
  let res := if custom.Persist then { res with Persist := custom.Persist } else res
  let res := if custom.Permissions != none then
    { res with Permissions := custom.Permissions } else res
  let res := if custom.MultiQueue then
    { res with MultiQueue := custom.MultiQueue } else res
  let res := if custom.ComponentID != "" then
    { res with ComponentID := custom.ComponentID } else res
  let res := if custom.Network != "" then
    { res with Network := custom.Network } else res
  let res := if custom.IsDHCP then { res with IsDHCP := custom.IsDHCP } else res
  let res := if custom.DHCPServer != "" then
    { res with DHCPServer := custom.DHCPServer } else res
  let res := if custom.DNS1 != "" then { res with DNS1 := custom.DNS1 } else res
  let res := if custom.DNS2 != "" then { res with DNS2 := custom.DNS2 } else res
  res

/-! ## The parts of Go's standard library `net` used by the device set-up
`net.ParseIP`, `net.ParseCIDR`, `net.CIDRMask`, `IP.Mask` and `IP.To4`, after
`src/net/ip.go` and `src/net/parse.go` of the Go distribution, in the version
of the textual parser that rejects decimal fields with leading zeros (Go 1.17
to 1.21).  `ParseCIDR` gives a 16-byte address in every case; the mask, and the
network address under it, have 4 bytes for a dotted-quad address and 16 bytes
for an address in IPv6 notation. -/

/-- Go `const IPv4len = 4`. -/
def IPv4len : Nat := 4

/-- Go `const IPv6len = 16`. -/
def IPv6len : Nat := 16

/-- Go `const big = 0xFFFFFF`, the bound of the number scanners. -/
def big : Nat := 0xFFFFFF

/-- Go `var v4InV6Prefix`. -/
def v4InV6Prefix : List Nat := [0, 0, 0, 0, 0, 0, 0, 0, 0, 0, 0xff, 0xff]

/-- Go `func IPv4(a, b, c, d byte) IP`: the 16-byte form of an IPv4 address. -/
def IPv4 (a b c d : Nat) : List Nat := v4InV6Prefix ++ [a, b, c, d]

/-- The loop of Go `dtoi`: `n` is the value so far, `i` the number of bytes
consumed.  Returns `(n, i, ok)`. -/
def dtoiLoop : List Char → Nat → Nat → Nat × Nat × Bool
  | [], n, i => if i = 0 then (0, 0, false) else (n, i, true)
  | c :: cs, n, i =>
    if 48 ≤ c.toNat ∧ c.toNat ≤ 57 then
      let n := n * 10 + (c.toNat - 48)
      if n ≥ big then (big, i, false) else dtoiLoop cs n (i + 1)
    else if i = 0 then (0, 0, false) else (n, i, true)

/-- Go `func dtoi(s string) (n int, i int, ok bool)`: decimal to integer. -/
def dtoi (s : List Char) : Nat × Nat × Bool := dtoiLoop s 0 0

/-- The loop of Go `xtoi`. -/
def xtoiLoop : List Char → Nat → Nat → Nat × Nat × Bool
  | [], n, i => if i = 0 then (0, i, false) else (n, i, true)
  | c :: cs, n, i =>
    if 48 ≤ c.toNat ∧ c.toNat ≤ 57 then
      let n := n * 16 + (c.toNat - 48)
      if n ≥ big then (0, i, false) else xtoiLoop cs n (i + 1)
    else if 97 ≤ c.toNat ∧ c.toNat ≤ 102 then
      let n := n * 16 + (c.toNat - 97) + 10
      if n ≥ big then (0, i, false) else xtoiLoop cs n (i + 1)
    else if 65 ≤ c.toNat ∧ c.toNat ≤ 70 then
      let n := n * 16 + (c.toNat - 65) + 10
      if n ≥ big then (0, i, false) else xtoiLoop cs n (i + 1)
    else if i = 0 then (0, i, false) else (n, i, true)

/-- Go `func xtoi(s string) (n int, i int, ok bool)`: hexadecimal to integer. -/
def xtoi (s : List Char) : Nat × Nat × Bool := xtoiLoop s 0 0

/-- The loop `for i := 0; i < IPv4len; i++` of Go `parseIPv4`; `k` counts the
iterations that remain, `p` holds the octets read so far. -/
def parseIPv4Loop : Nat → Nat → List Char → List Nat → Option (List Nat)
  | 0, _, s, p =>
    if s.length ≠ 0 then none
    else some (IPv4 (p.getD 0 0) (p.getD 1 0) (p.getD 2 0) (p.getD 3 0))
  | k + 1, i, s, p =>
    if s.length = 0 then none
    else if i > 0 ∧ s.head? ≠ some '.' then none
    else
      let s := if i > 0 then s.tail else s
      let r := dtoi s
      if r.2.2 = false ∨ r.1 > 0xFF then none
      else if r.2.1 > 1 ∧ s.head? = some '0' then none
      else parseIPv4Loop k (i + 1) (s.drop r.2.1) (p ++ [r.1])

/-- Go `func parseIPv4(s string) IP`; `none` is the nil result. -/
def parseIPv4 (s : List Char) : Option (List Nat) := parseIPv4Loop IPv4len 0 s []

/-- State of `parseIPv6` when its main loop is left: index `i`, the rest of
the input, the address bytes and the position of the ellipsis (`none` is -1). -/
structure V6State where
  i : Nat
  s : List Char
  ip : List Nat
  ellipsis : Option Nat

/-- The loop `for i < IPv6len` of Go `parseIPv6`.  Every iteration that does
not leave the loop adds 2 to `i`, so the loop body runs at most 8 times; the
first argument counts the iterations that remain.  `none` is `return nil`. -/
def parseIPv6Loop : Nat → V6State → Option V6State
  | 0, st => some st
  | k + 1, st =>
    if ¬ st.i < IPv6len then some st
    else
      let r := xtoi st.s
      if r.2.2 = false ∨ r.1 > 0xFFFF then none
      else if r.2.1 < st.s.length ∧ st.s.get? r.2.1 = some '.' then
        if st.ellipsis = none ∧ st.i ≠ IPv6len - IPv4len then none
        else if st.i + IPv4len > IPv6len then none
        else
          match parseIPv4 st.s with
          | none => none
          | some ip4 =>
            let ip := st.ip.set st.i (ip4.getD 12 0)
            let ip := ip.set (st.i + 1) (ip4.getD 13 0)
            let ip := ip.set (st.i + 2) (ip4.getD 14 0)
            let ip := ip.set (st.i + 3) (ip4.getD 15 0)
            some { i := st.i + IPv4len, s := [], ip := ip, ellipsis := st.ellipsis }
      else
        let ip := st.ip.set st.i ((r.1 >>> 8) % 256)
        let ip := ip.set (st.i + 1) (r.1 % 256)
        let i := st.i + 2
        let s := st.s.drop r.2.1
        if s.length = 0 then some { i := i, s := s, ip := ip, ellipsis := st.ellipsis }
        else if s.head? ≠ some ':' ∨ s.length = 1 then none
        else
          let s := s.tail
          if s.head? = some ':' then
            if st.ellipsis ≠ none then none
            else
              let s := s.tail
              if s.length = 0 then some { i := i, s := s, ip := ip, ellipsis := some i }
              else parseIPv6Loop k { i := i, s := s, ip := ip, ellipsis := some i }
          else parseIPv6Loop k { i := i, s := s, ip := ip, ellipsis := st.ellipsis }

/-- The tail of Go `parseIPv6` after the main loop: the whole input must be
used, and a short address is expanded at the ellipsis by the two copy loops. -/
def parseIPv6Finish (st : V6State) : Option (List Nat) :=
  if st.s.length ≠ 0 then none
  else if st.i < IPv6len then
    match st.ellipsis with
    | none => none
    | some e =>
      let n := IPv6len - st.i
      let ip := (List.range' e (st.i - e)).reverse.foldl
        (fun ip j => ip.set (j + n) (ip.getD j 0)) st.ip
      let ip := (List.range' e n).reverse.foldl (fun ip j => ip.set j 0) ip
      some ip
  else if st.ellipsis ≠ none then none
  else some st.ip

/-- Go `func parseIPv6(s string) (ip IP)`. -/
def parseIPv6 (s : List Char) : Option (List Nat) :=
  let ip := List.replicate IPv6len 0
  if s.length ≥ 2 ∧ s.get? 0 = some ':' ∧ s.get? 1 = some ':' then
    let s := s.drop 2
    if s.length = 0 then some ip
    else
      match parseIPv6Loop 8 { i := 0, s := s, ip := ip, ellipsis := some 0 } with
      | none => none
      | some st => parseIPv6Finish st
  else
    match parseIPv6Loop 8 { i := 0, s := s, ip := ip, ellipsis := none } with
    | none => none
    | some st => parseIPv6Finish st

/-- The scan of Go `ParseIP` for the first `.` or `:`; `all` is the whole
input, handed to the parser that the first separator selects. -/
def parseIPScan (all : List Char) : List Char → Option (List Nat)
  | [] => none
  | c :: cs =>
    if c = '.' then parseIPv4 all
    else if c = ':' then parseIPv6 all
    else parseIPScan all cs

/-- Go `func ParseIP(s string) IP`. -/
def ParseIP (s : String) : Option (List Nat) := parseIPScan s.toList s.toList

/-- Go `func (ip IP) To4() IP`. -/
def IP.To4 (ip : List Nat) : Option (List Nat) :=
  if ip.length = IPv4len then some ip
  else if ip.length = IPv6len ∧ (ip.take 10).all (fun b => b = 0) ∧
      ip.getD 10 0 = 0xff ∧ ip.getD 11 0 = 0xff then
    some ((ip.drop 12).take 4)
  else none

/-- The loop of Go `CIDRMask`: `l` bytes are still to be written, `n` one bits
are still to be placed. -/
def cidrMaskLoop : Nat → Nat → List Nat
  | 0, _ => []
  | l + 1, n =>
    if n ≥ 8 then 0xff :: cidrMaskLoop l (n - 8)
    else (0xff - (0xff >>> n)) :: cidrMaskLoop l 0

/-- Go `func CIDRMask(ones, bits int) IPMask`. -/
def CIDRMask (ones bits : Nat) : Option (List Nat) :=
  if bits ≠ 8 * IPv4len ∧ bits ≠ 8 * IPv6len then none
  else if ones > bits then none
  else some (cidrMaskLoop (bits / 8) ones)

/-- Go `func (ip IP) Mask(mask IPMask) IP`. -/
def IP.Mask (ip mask : List Nat) : Option (List Nat) :=
  let mask := if mask.length = IPv6len ∧ ip.length = IPv4len ∧
      (mask.take 12).all (fun b => b = 0xff) then mask.drop 12 else mask
  let ip := if mask.length = IPv4len ∧ ip.length = IPv6len ∧
      ip.take 12 = v4InV6Prefix then ip.drop 12 else ip
  if ip.length ≠ mask.length then none
  else some (List.zipWith (fun a b => a &&& b) ip mask)

/-- Go `type IPNet struct { IP IP; Mask IPMask }`; a nil slice is `none`. -/
structure IPNet where
  IP : Option (List Nat)
  Mask : Option (List Nat)
  deriving DecidableEq, Repr

/-- Go `func ParseCIDR(s string) (IP, *IPNet, error)`; the error is the text
of the `*ParseError`. -/
def ParseCIDR (s : String) : Except String (List Nat × IPNet) :=
  let cs := s.toList
  let i := cs.indexOf '/'
  if i ≥ cs.length then .error ("invalid CIDR address: " ++ s)
  else
    let addr := cs.take i
    let mask := cs.drop (i + 1)
    let ip4 := parseIPv4 addr
    let iplen := if ip4 = none then IPv6len else IPv4len
    let ip := if ip4 = none then parseIPv6 addr else ip4
    let r := dtoi mask
    match ip with
    | none => .error ("invalid CIDR address: " ++ s)
    | some ip =>
      if r.2.2 = false ∨ r.2.1 ≠ mask.length ∨ r.1 > 8 * iplen then
        .error ("invalid CIDR address: " ++ s)
      else
        let m := CIDRMask r.1 (8 * iplen)
        .ok (ip, { IP := m.bind (IP.Mask ip), Mask := m })

/-! ## syscalls_windows.go: errors, the operating system, the trace -/

/-- A Go `error` value: a `syscall.Errno`, a package-level error variable
(identified by its message) or a fresh value made by `fmt.Errorf`. -/
inductive GoError where
  | errno (code : Nat)
  | pkgVar (msg : String)
  | fmt (msg : String)
  deriving DecidableEq, Repr

/-- Go `errIfceNameNotFound = errors.New("Failed to find the name of interface")`. -/
def errIfceNameNotFound : GoError := .pkgVar "Failed to find the name of interface"

/-- Go `syscall.EINVAL`, returned by `syscall.UTF16PtrFromString` for a string
with a NUL byte. -/
def EINVAL : GoError := .pkgVar "invalid argument"

/-- An open registry key, Go `registry.Key`, by what its read operations
return: `GetStringValue(name)` and `ReadSubKeyNames(-1)`. -/
structure RegKey where
  GetStringValue : String → Except GoError String
  ReadSubKeyNames : Except GoError (List String)

/-- Go `net.Interface`, the two fields `openDev` reads. -/
structure NetInterface where
  Name : String
  HardwareAddr : List Nat
  deriving DecidableEq, Repr

/-- The operating system as seen by this file: every result an OS call gives.
`OpenKey` is `registry.OpenKey(registry.LOCAL_MACHINE, path, registry.READ)`;
`CreateFile` gives the handle or the error number; `DeviceIoControl fd code
input` gives the bytes the driver writes to the output buffer or the error
number; `CreateEvent k` is the pair `(r, err)` that the `k`-th call of
`CreateEventW` returns; `Interfaces` is `net.Interfaces()`; `errnoText` is
`Errno.Error()`. -/
structure World where
  OpenKey : String → Except GoError RegKey
  CreateFile : String → Except Nat Nat
  DeviceIoControl : Nat → Nat → List Nat → Except Nat (List Nat)
  CreateEvent : Nat → Nat × Nat
  Interfaces : Except GoError (List NetInterface)
  errnoText : Nat → String

/-- Go `err.Error()`. -/
def GoError.Error (w : World) : GoError → String
  | .errno c => w.errnoText c
  | .pkgVar m => m
  | .fmt m => m

/-- What happens to the device handle: a device-control call with its input
payload, or `syscall.Close`. -/
inductive Event where
  | ioctl (fd code : Nat) (payload : List Nat)
  | close (fd : Nat)
  deriving DecidableEq, Repr

/-- How a call ends: it returns its `error` result (`none` is nil), or it
panics. -/
inductive Outcome where
  | ret (err : Option GoError)
  | panic
  deriving DecidableEq, Repr

/-- Go `tapDriverKey`. -/
def tapDriverKey : String :=
  "SYSTEM\\CurrentControlSet\\Control\\Class\\\x7b4D36E972-E325-11CE-BFC1-08002BE10318\x7d"

/-- Go `netConfigKey`. -/
def netConfigKey : String :=
  "SYSTEM\\CurrentControlSet\\Control\\Network\\\x7b4D36E972-E325-11CE-BFC1-08002BE10318\x7d"

/-- Go `file_device_unknown = uint32(0x00000022)`. -/
def file_device_unknown : Nat := 0x00000022

/-- Go `func ctl_code(device_type, function, method, access uint32) uint32`. -/
def ctl_code (device_type function method access : Nat) : Nat :=
  (((device_type <<< 16) % 2 ^ 32) ||| ((access <<< 14) % 2 ^ 32) |||
    ((function <<< 2) % 2 ^ 32) ||| method) % 2 ^ 32

/-- Go `func tap_control_code(request, method uint32) uint32`. -/
def tap_control_code (request method : Nat) : Nat :=
  ctl_code file_device_unknown request method 0

/-- Go `tap_win_ioctl_get_mac = tap_control_code(1, 0)`. -/
def tap_win_ioctl_get_mac : Nat := tap_control_code 1 0

/-- Go `tap_ioctl_set_media_status = tap_control_code(6, 0)`. -/
def tap_ioctl_set_media_status : Nat := tap_control_code 6 0

/-- Go `tap_win_ioctl_config_dhcp_masq = tap_control_code(7, 0)`. -/
def tap_win_ioctl_config_dhcp_masq : Nat := tap_control_code 7 0

/-- Go `tap_win_ioctl_config_dhcp_set_opt = tap_control_code(9, 0)`. -/
def tap_win_ioctl_config_dhcp_set_opt : Nat := tap_control_code 9 0

/-- Go `tap_ioctl_config_tun = tap_control_code(10, 0)`. -/
def tap_ioctl_config_tun : Nat := tap_control_code 10 0

/-- Go `type Overlapped struct`, the field `HEvent`. -/
structure Overlapped where
  HEvent : Nat
  deriving DecidableEq, Repr

/-- Go `func newOverlapped() (*syscall.Overlapped, error)`, at the `k`-th call
of `CreateEventW`.  The `error` returned for `r == 0` is the `Errno` of the
call, a non-nil interface value whatever its number. -/
def newOverlapped (w : World) (k : Nat) : Except GoError Overlapped :=
  let r := w.CreateEvent k
  if r.1 = 0 then .error (.errno r.2) else .ok { HEvent := r.1 }

/-! ## getdeviceid -/

/-- The loop `for _, v := range keys` of Go `getdeviceid`; `some val` is
`return val, nil`, `none` is falling out of the loop.  The inner
`val, _, err := k2.GetStringValue("Name")` declares a new `val` in the block of
`if len(interfaceName) > 0`, so the `val` returned is the `NetCfgInstanceId`. -/
def getdeviceidLoop (w : World) (componentID interfaceName : String) :
    List String → Option String
  | [] => none
  | v :: keys =>
    match w.OpenKey (tapDriverKey ++ "\\" ++ v) with
    | .error _ => getdeviceidLoop w componentID interfaceName keys
    | .ok key =>
      match key.GetStringValue "ComponentId" with
      | .error _ => getdeviceidLoop w componentID interfaceName keys
      | .ok val =>
        if val = componentID then
          match key.GetStringValue "NetCfgInstanceId" with
          | .error _ => getdeviceidLoop w componentID interfaceName keys
          | .ok val =>
            if interfaceName.length > 0 then
              match w.OpenKey (netConfigKey ++ "\\" ++ val ++ "\\Connection") with
              | .error _ => getdeviceidLoop w componentID interfaceName keys
              | .ok k2 =>
                match k2.GetStringValue "Name" with
                | .error _ => getdeviceidLoop w componentID interfaceName keys
                | .ok val2 =>
                  if val2 ≠ interfaceName then
                    getdeviceidLoop w componentID interfaceName keys
                  else some val
            else some val
        else getdeviceidLoop w componentID interfaceName keys

/-- Go `func getdeviceid(componentID string, interfaceName string)
(deviceid string, err error)`. -/
def getdeviceid (w : World) (componentID interfaceName : String) :
    Except GoError String :=
  match w.OpenKey tapDriverKey with
  | .error err =>
    .error (.fmt ("Failed to open the adapter registry, TAP driver may be not installed, "
      ++ err.Error w))
  | .ok k =>
    match k.ReadSubKeyNames with
    | .error err => .error err
    | .ok keys =>
      match getdeviceidLoop w componentID interfaceName keys with
      | some val => .ok val
      | none =>
        if interfaceName.length > 0 then
          .error (.fmt ("Failed to find the tap device in registry with specified ComponentId '"
            ++ componentID ++ "' and InterfaceName '" ++ interfaceName
            ++ "', TAP driver may be not installed or you may have specified an interface name that doesn't exist"))
        else
          .error (.fmt ("Failed to find the tap device in registry with specified ComponentId '"
            ++ componentID ++ "', TAP driver may be not installed"))

/-! ## Device control -/

/-- Go `func setStatus(fd syscall.Handle, status bool) error`. -/
def setStatus (w : World) (fd : Nat) (status : Bool) : Outcome × List Event :=
  let code := [0x00, 0x00, 0x00, 0x00]
  let code := if status then code.set 0 0x01 else code
  match w.DeviceIoControl fd tap_ioctl_set_media_status code with
  | .error e => (.ret (some (.errno e)), [.ioctl fd tap_ioctl_set_media_status code])
  | .ok _ => (.ret none, [.ioctl fd tap_ioctl_set_media_status code])

/-- The Go slice expression `x[:4]`: it panics (`none`) on a nil slice and on
one shorter than 4.  Every slice met here has its capacity equal to its length. -/
def sliceTo4 : Option (List Nat) → Option (List Nat)
  | none => none
  | some x => if x.length < 4 then none else some (x.take 4)

/-- Go `func setTUN(fd syscall.Handle, network string) error`. -/
def setTUN (w : World) (fd : Nat) (network : String) : Outcome × List Event :=
  match ParseCIDR network with
  | .error err =>
    (.ret (some (.fmt ("Failed to parse network CIDR in config, " ++ err))), [])
  | .ok (localIP, remoteNet) =>
    if IP.To4 localIP = none then
      (.ret (some (.fmt ("Provided network(" ++ network
        ++ ") is not a valid IPv4 address"))), [])
    else
      match sliceTo4 (IP.To4 localIP) with
      | none => (.panic, [])
      | some a =>
        match sliceTo4 (remoteNet.IP.bind IP.To4) with
        | none => (.panic, [])
        | some b =>
          match sliceTo4 remoteNet.Mask with
          | none => (.panic, [])
          | some c =>
            let code2 := a ++ b ++ c
            if code2.length ≠ 12 then
              (.ret (some (.fmt ("Provided network(" ++ network ++ ") is not valid"))), [])
            else
              match w.DeviceIoControl fd tap_ioctl_config_tun code2 with
              | .error e => (.ret (some (.errno e)), [.ioctl fd tap_ioctl_config_tun code2])
              | .ok _ => (.ret none, [.ioctl fd tap_ioctl_config_tun code2])

/-- The Go built-in `copy(dst, src)` on byte slices: the first
`min(len(dst), len(src))` bytes of `dst` are replaced. -/
def goCopy (dst src : List Nat) : List Nat :=
  src.take dst.length ++ dst.drop src.length

/-- Go `func setDHCP(fd syscall.Handle, network, dhcpserver string) error`. -/
def setDHCP (w : World) (fd : Nat) (network dhcpserver : String) :
    Outcome × List Event :=
  match ParseCIDR network with
  | .error err =>
    (.ret (some (.fmt ("Failed to parse network CIDR in config, " ++ err))), [])
  | .ok (localIP, remoteNet) =>
    match IP.To4 localIP with
    | none =>
      (.ret (some (.fmt ("Provided network(" ++ network
        ++ ") is not a valid IPv4 address"))), [])
    | some localIP =>
      let dhcpserverIP := ParseIP dhcpserver
      if dhcpserverIP ≠ none ∧ dhcpserverIP.bind IP.To4 = none then
        (.ret (some (.fmt ("Provided gateway(" ++ dhcpserver
          ++ ") is not a valid IPv4 address"))), [])
      else
        let dhcpserverIP := dhcpserverIP.bind IP.To4
        let leaseTime := [0x80, 0x33, 0xE1, 0x01]
        let arguments := goCopy [0, 0, 0, 0] localIP
          ++ goCopy [0, 0, 0, 0] (remoteNet.Mask.getD [])
          ++ goCopy [0, 0, 0, 0] (dhcpserverIP.getD [])
          ++ goCopy [0, 0, 0, 0] leaseTime
        match w.DeviceIoControl fd tap_win_ioctl_config_dhcp_masq arguments with
        | .error e =>
          (.ret (some (.fmt ("Configure DHCP failed: " ++ w.errnoText e))),
            [.ioctl fd tap_win_ioctl_config_dhcp_masq arguments])
        | .ok _ => (.ret none, [.ioctl fd tap_win_ioctl_config_dhcp_masq arguments])

/-- Go `func setDHCPDNS(fd syscall.Handle, dns1, dns2 string) error`. -/
def setDHCPDNS (w : World) (fd : Nat) (dns1 dns2 : String) : Outcome × List Event :=
  if dns1 = "" then (.ret none, [])
  else
    match ParseIP dns1 with
    | none =>
      (.ret (some (.fmt ("Provided dns(" ++ dns1 ++ ") is not a valid IPv4 address"))), [])
    | some dns1IP =>
      match IP.To4 dns1IP with
      | none =>
        (.ret (some (.fmt ("Provided dns(" ++ dns1 ++ ") is not a valid IPv4 address"))), [])
      | some dns1IP =>
        let dns2IP := (ParseIP dns2).bind IP.To4
        let arguments := [0, 0, 0, 0, 0, 0]
        let arguments := arguments.set 0 6
        let arguments := arguments.set 1 (dns1IP.length % 256)
        let arguments := arguments.take 2 ++ goCopy (arguments.drop 2) dns1IP
        let arguments :=
          match dns2IP with
          | some dns2IP =>
            arguments.set 1 ((arguments.getD 1 0 + dns2IP.length % 256) % 256) ++ dns2IP
          | none => arguments
        match w.DeviceIoControl fd tap_win_ioctl_config_dhcp_set_opt arguments with
        | .error e =>
          (.ret (some (.fmt ("Configure DHCP DNS failed: " ++ w.errnoText e))),
            [.ioctl fd tap_win_ioctl_config_dhcp_set_opt arguments])
        | .ok _ => (.ret none, [.ioctl fd tap_win_ioctl_config_dhcp_set_opt arguments])

/-! ## openDev -/

/-- Go `type DeviceType int`. -/
abbrev DeviceType := Int

/-- Modelled from the spec: the declaration of the device-type tags is not in
the two source files; the spec names the two tags TUN and TAP, and `openDev`
only compares `config.DeviceType` with them. -/
def TUN : DeviceType := 1

/-- Modelled from the spec: the second device-type tag, see `TUN`. -/
def TAP : DeviceType := 2

/-- Modelled from the spec: the configuration value, a device type and the
embedded platform specific parameter bundle, as `openDev` reads it. -/
structure Config where
  DeviceType : DeviceType
  PlatformSpecificParams : PlatformSpecificParams
  deriving DecidableEq, Repr

/-- Go `type wfile struct`, without the two mutexes. -/
structure wfile where
  fd : Nat
  ro : Overlapped
  wo : Overlapped
  deriving DecidableEq, Repr

/-- Modelled from the spec: the interface object, with the fields that
`openDev` sets (`isTAP`, `ReadWriteCloser`, `fd`, `name`). -/
structure Interface where
  isTAP : Bool
  ReadWriteCloser : wfile
  fd : Nat
  name : String
  deriving DecidableEq, Repr

/-- Go `syscall.InvalidHandle`, the handle `CreateFile` returns with an error. -/
def InvalidHandle : Nat := 2 ^ 64 - 1

/-- Go `syscall.UTF16PtrFromString`: it fails with `EINVAL` if the string has a
NUL byte. -/
def UTF16PtrFromString (s : String) : Except GoError String :=
  if s.toList.contains (Char.ofNat 0) then .error EINVAL else .ok s

/-- The loop `for _, v := range ifces` of Go `openDev`: the name of the first
interface whose hardware address starts with the six bytes of `mac`. -/
def findIfceName (mac : List Nat) : List NetInterface → Option String
  | [] => none
  | v :: ifces =>
    if v.HardwareAddr.length < 6 then findIfceName mac ifces
    else if v.HardwareAddr.take 6 = mac.take 6 then some v.Name
    else findIfceName mac ifces

/-- The named results `ifce`, `err` of `openDev` at the moment its body is
left, whether it is left by a panic, and the events so far. -/
structure Frame where
  panicked : Bool
  ifce : Option Interface
  err : Option GoError
  trace : List Event
  deriving DecidableEq, Repr

/-- What `openDev` returns, with the events on the device handle. -/
structure OpenResult where
  ifce : Option Interface
  err : Option GoError
  trace : List Event
  deriving DecidableEq, Repr

/-- The block `if config.DeviceType == TUN { ... }` of Go `openDev`: `setTUN`,
then, if `config.IsDHCP`, `setDHCP` and `setDHCPDNS`; it stops at the first call
that returns an error or panics. -/
def configureTUN (w : World) (config : Config) (file : Nat) : Outcome × List Event :=
  if config.DeviceType = TUN then
    match setTUN w file config.PlatformSpecificParams.Network with
    | (.panic, t1) => (.panic, t1)
    | (.ret (some err), t1) => (.ret (some err), t1)
    | (.ret none, t1) =>
      if config.PlatformSpecificParams.IsDHCP then
        match setDHCP w file config.PlatformSpecificParams.Network
            config.PlatformSpecificParams.DHCPServer with
        | (.panic, t2) => (.panic, t1 ++ t2)
        | (.ret (some err), t2) => (.ret (some err), t1 ++ t2)
        | (.ret none, t2) =>
          match setDHCPDNS w file config.PlatformSpecificParams.DNS1
              config.PlatformSpecificParams.DNS2 with
          | (.panic, t3) => (.panic, t1 ++ t2 ++ t3)
          | (.ret (some err), t3) => (.ret (some err), t1 ++ t2 ++ t3)
          | (.ret none, t3) => (.ret none, t1 ++ t2 ++ t3)
      else (.ret none, t1)
  else (.ret none, [])

/-- The body of Go `openDev` after the `defer` statement, `file` and `err`
being the results of `CreateFile`. -/
def openDevBody (w : World) (config : Config) (file : Nat) (err : Option GoError) :
    Frame :=
  match err with
  | some e => { panicked := false, ifce := none, err := some e, trace := [] }
  | none =>
    let mac := [0, 0, 0, 0, 0, 0]
    let t0 := [Event.ioctl file tap_win_ioctl_get_mac mac]
    match w.DeviceIoControl file tap_win_ioctl_get_mac mac with
    | .error e => { panicked := false, ifce := none, err := some (.errno e), trace := t0 }
    | .ok out =>
      let mac := goCopy mac out
      match newOverlapped w 0 with
      | .error e => { panicked := false, ifce := none, err := some e, trace := t0 }
      | .ok ro =>
        match newOverlapped w 1 with
        | .error e => { panicked := false, ifce := none, err := some e, trace := t0 }
        | .ok wo =>
          let fd : wfile := { fd := file, ro := ro, wo := wo }
          let ifce : Interface :=
            { isTAP := config.DeviceType = TAP, ReadWriteCloser := fd, fd := file, name := "" }
          match configureTUN w config file with
          | (.panic, t1) =>
            { panicked := true, ifce := some ifce, err := none, trace := t0 ++ t1 }
          | (.ret (some e), t1) =>
            { panicked := false, ifce := none, err := some e, trace := t0 ++ t1 }
          | (.ret none, t1) =>
            match setStatus w file true with
            | (.panic, t2) =>
              { panicked := true, ifce := some ifce, err := none, trace := t0 ++ t1 ++ t2 }
            | (.ret (some e), t2) =>
              { panicked := false, ifce := none, err := some e, trace := t0 ++ t1 ++ t2 }
            | (.ret none, t2) =>
              match w.Interfaces with
              | .error e =>
                { panicked := false, ifce := some ifce, err := some e,
                  trace := t0 ++ t1 ++ t2 }
              | .ok ifces =>
                match findIfceName mac ifces with
                | some name =>
                  { panicked := false, ifce := some { ifce with name := name }, err := none,
                    trace := t0 ++ t1 ++ t2 }
                | none =>
                  { panicked := false, ifce := none, err := some errIfceNameNotFound,
                    trace := t0 ++ t1 ++ t2 }

/-- The deferred function of Go `openDev`, run when the body is left: it
closes `file` if the named result `err` is non-nil, and closes it if
`recover()` returns a panic value; a recovered panic makes `openDev` return the
current values of its named results. -/
def runDeferred (file : Nat) (f : Frame) : OpenResult :=
  let t1 := if f.err ≠ none then [Event.close file] else []
  let t2 := if f.panicked then [Event.close file] else []
  { ifce := f.ifce, err := f.err, trace := f.trace ++ t1 ++ t2 }

/-- Go `func openDev(config Config) (ifce *Interface, err error)`. -/
def openDev (w : World) (config : Config) : OpenResult :=
  match getdeviceid w config.PlatformSpecificParams.ComponentID
      config.PlatformSpecificParams.Name with
  | .error err => { ifce := none, err := some err, trace := [] }
  | .ok deviceid =>
    let path := "\\\\.\\Global\\" ++ deviceid ++ ".tap"
    match UTF16PtrFromString path with
    | .error err => { ifce := none, err := some err, trace := [] }
    | .ok pathp =>
      match w.CreateFile pathp with
      | .error e => runDeferred InvalidHandle (openDevBody w config InvalidHandle (some (.errno e)))
      | .ok file => runDeferred file (openDevBody w config file none)

/-! ## Notions used in the statements, and example machines -/

/-- The test `setDHCPDNS` applies to an address string: `net.ParseIP` gives a
non-nil address and `To4` of it is non-nil.  `some a` is a valid IPv4 address
with bytes `a`, `none` is a string that is absent, malformed or not IPv4. -/
def ipv4Bytes (s : String) : Option (List Nat) := (ParseIP s).bind IP.To4

/-- The payload `setDHCPDNS` builds from the bytes of the primary address and
the bytes of the secondary address, if it has any. -/
def dnsPayload (a : List Nat) (b : Option (List Nat)) : List Nat :=
  match b with
  | none => 6 :: 4 :: a
  | some b => 6 :: 8 :: (a ++ b)

/-- One adapter entry of the registry: what the sub-key of the driver class
key gives for `ComponentId` and `NetCfgInstanceId`, and the `Name` of the
connection key of that instance; `none` is a value that cannot be read. -/
structure Entry where
  ComponentId : Option String
  NetCfgInstanceId : Option String
  Name : Option String
  deriving DecidableEq, Repr

/-- The adapter entry behind the sub-key `v` of the driver class key. -/
def entryOf (w : World) (v : String) : Entry :=
  match w.OpenKey (tapDriverKey ++ "\\" ++ v) with
  | .error _ => { ComponentId := none, NetCfgInstanceId := none, Name := none }
  | .ok key =>
    let inst := (key.GetStringValue "NetCfgInstanceId").toOption
    { ComponentId := (key.GetStringValue "ComponentId").toOption
      NetCfgInstanceId := inst
      Name := inst.bind fun i =>
        match w.OpenKey (netConfigKey ++ "\\" ++ i ++ "\\Connection") with
        | .error _ => none
        | .ok k2 => (k2.GetStringValue "Name").toOption }

/-- The ordered list of adapter entries, one per sub-key name. -/
def regEntries (w : World) (keys : List String) : List Entry := keys.map (entryOf w)

/-- The entry has the wanted component identifier and, when an interface name
is wanted, exactly that connection name. -/
def Entry.matches (componentID interfaceName : String) (e : Entry) : Bool :=
  decide (e.ComponentId = some componentID) &&
    (decide (interfaceName = "") || decide (e.Name = some interfaceName))

/-- The entry matches and its `NetCfgInstanceId` can be read. -/
def Entry.accepted (componentID interfaceName : String) (e : Entry) : Bool :=
  e.matches componentID interfaceName && e.NetCfgInstanceId.isSome

/-- The text `part` occurs in `msg`. -/
def Mentions (msg part : String) : Prop := ∃ pre post : String, msg = pre ++ part ++ post

/-- `registry.ErrNotExist`, what reading a missing key or value returns. -/
def ErrNotExist : GoError := .errno 2

/-- An adapter sub-key with the given `ComponentId` and `NetCfgInstanceId`
values (`none`: the value is missing). -/
def adapterKey (cid inst : Option String) : RegKey :=
  { GetStringValue := fun n =>
      if n = "ComponentId" then (match cid with | some c => .ok c | none => .error ErrNotExist)
      else if n = "NetCfgInstanceId" then
        (match inst with | some c => .ok c | none => .error ErrNotExist)
      else .error ErrNotExist
    ReadSubKeyNames := .ok [] }

/-- A connection key with the given `Name` value. -/
def connectionKey (name : String) : RegKey :=
  { GetStringValue := fun n => if n = "Name" then .ok name else .error ErrNotExist
    ReadSubKeyNames := .ok [] }

/-- A machine for the examples: the driver class key has the sub-keys
`adapters` (name and content), the network configuration key has a connection
key for the instances `conns` (instance identifier and connection name),
`CreateFile` gives handle 7, the device reports the hardware address `mac`,
every other device-control call succeeds, and `net.Interfaces()` gives
`ifces`. -/
def machine (adapters : List (String × RegKey)) (conns : List (String × String))
    (mac : List Nat) (ifces : Except GoError (List NetInterface)) : World :=
  { OpenKey := fun p =>
      if p = tapDriverKey then
        .ok { GetStringValue := fun _ => .error ErrNotExist
              ReadSubKeyNames := .ok (adapters.map Prod.fst) }
      else
        match adapters.find? (fun a => decide (p = tapDriverKey ++ "\\" ++ a.1)) with
        | some a => .ok a.2
        | none =>
          match conns.find? (fun c => decide (p = netConfigKey ++ "\\" ++ c.1 ++ "\\Connection")) with
          | some c => .ok (connectionKey c.2)
          | none => .error ErrNotExist
    CreateFile := fun _ => .ok 7
    DeviceIoControl := fun _ code _ => if code = tap_win_ioctl_get_mac then .ok mac else .ok []
    CreateEvent := fun k => (k + 1, 0)
    Interfaces := ifces
    errnoText := fun _ => "" }

/-- A registry whose first adapter has the wanted `ComponentId` but no readable
`NetCfgInstanceId`, and whose second adapter has both. -/
def registryMissingInstance : World :=
  machine [("0000", adapterKey (some "tap0901") none),
    ("0001", adapterKey (some "tap0901") (some "B-1"))] [("B-1", "Ethernet 2")]
    [1, 2, 3, 4, 5, 6] (.ok [])

/-- A registry whose only adapter has the wanted `ComponentId` but no readable
`NetCfgInstanceId`. -/
def registryOnlyMissingInstance : World :=
  machine [("0000", adapterKey (some "tap0901") none)] [] [1, 2, 3, 4, 5, 6] (.ok [])

/-- The event is a device-control call on `file`. -/
def Event.isIoctlOn (file : Nat) : Event → Prop
  | .ioctl fd _ _ => fd = file
  | .close _ => False

/-- A machine with one TAP adapter, instance `B-1`, whose device reports the
hardware address `00:ff:01:02:03:04`. -/
def tapMachine (ifces : Except GoError (List NetInterface)) : World :=
  machine [("0000", adapterKey (some "tap0901") (some "B-1"))] [("B-1", "Ethernet 2")]
    [0, 255, 1, 2, 3, 4] ifces

/-- The interface list of a machine on which no interface has the hardware
address of the TAP device. -/
def otherIfces : List NetInterface :=
  [{ Name := "Loopback", HardwareAddr := [] },
    { Name := "Ethernet", HardwareAddr := [0, 255, 1, 2, 3, 5] }]

/-- A TAP configuration with the default parameters. -/
def tapConfig : Config :=
  { DeviceType := TAP, PlatformSpecificParams := defaultPlatformSpecificParams }

/-- The set-up failures of `openDev` after the handle `file` was opened, each
with the steps before it succeeding: the MAC query, the creation of the read
and of the write completion context, the TUN, the DHCP and the DHCP DNS
configuration, the link-up and the enumeration of the OS interfaces. -/
inductive SetupFailure (w : World) (config : Config) (file : Nat) : Prop where
  | macQuery (e : Nat)
      (hmac : w.DeviceIoControl file tap_win_ioctl_get_mac [0, 0, 0, 0, 0, 0] = .error e) :
      SetupFailure w config file
  | readContext (out : List Nat) (e : GoError)
      (hmac : w.DeviceIoControl file tap_win_ioctl_get_mac [0, 0, 0, 0, 0, 0] = .ok out)
      (hro : newOverlapped w 0 = .error e) : SetupFailure w config file
  | writeContext (out : List Nat) (ro : Overlapped) (e : GoError)
      (hmac : w.DeviceIoControl file tap_win_ioctl_get_mac [0, 0, 0, 0, 0, 0] = .ok out)
      (hro : newOverlapped w 0 = .ok ro) (hwo : newOverlapped w 1 = .error e) :
      SetupFailure w config file
  | tunConfig (out : List Nat) (ro wo : Overlapped) (e : GoError)
      (hmac : w.DeviceIoControl file tap_win_ioctl_get_mac [0, 0, 0, 0, 0, 0] = .ok out)
      (hro : newOverlapped w 0 = .ok ro) (hwo : newOverlapped w 1 = .ok wo)
      (htun : config.DeviceType = TUN)
      (h1 : (setTUN w file config.PlatformSpecificParams.Network).1 = Outcome.ret (some e)) :
      SetupFailure w config file
  | dhcpConfig (out : List Nat) (ro wo : Overlapped) (e : GoError)
      (hmac : w.DeviceIoControl file tap_win_ioctl_get_mac [0, 0, 0, 0, 0, 0] = .ok out)
      (hro : newOverlapped w 0 = .ok ro) (hwo : newOverlapped w 1 = .ok wo)
      (htun : config.DeviceType = TUN)
      (h1 : (setTUN w file config.PlatformSpecificParams.Network).1 = Outcome.ret none)
      (hdhcp : config.PlatformSpecificParams.IsDHCP = true)
      (h2 : (setDHCP w file config.PlatformSpecificParams.Network
        config.PlatformSpecificParams.DHCPServer).1 = Outcome.ret (some e)) :
      SetupFailure w config file
  | dnsConfig (out : List Nat) (ro wo : Overlapped) (e : GoError)
      (hmac : w.DeviceIoControl file tap_win_ioctl_get_mac [0, 0, 0, 0, 0, 0] = .ok out)
      (hro : newOverlapped w 0 = .ok ro) (hwo : newOverlapped w 1 = .ok wo)
      (htun : config.DeviceType = TUN)
      (h1 : (setTUN w file config.PlatformSpecificParams.Network).1 = Outcome.ret none)
      (hdhcp : config.PlatformSpecificParams.IsDHCP = true)
      (h2 : (setDHCP w file config.PlatformSpecificParams.Network
        config.PlatformSpecificParams.DHCPServer).1 = Outcome.ret none)
      (h3 : (setDHCPDNS w file config.PlatformSpecificParams.DNS1
        config.PlatformSpecificParams.DNS2).1 = Outcome.ret (some e)) :
      SetupFailure w config file
  | linkUp (out : List Nat) (ro wo : Overlapped) (e : GoError)
      (hmac : w.DeviceIoControl file tap_win_ioctl_get_mac [0, 0, 0, 0, 0, 0] = .ok out)
      (hro : newOverlapped w 0 = .ok ro) (hwo : newOverlapped w 1 = .ok wo)
      (hcfg : (configureTUN w config file).1 = Outcome.ret none)
      (hup : (setStatus w file true).1 = Outcome.ret (some e)) : SetupFailure w config file
  | interfaces (out : List Nat) (ro wo : Overlapped) (e : GoError)
      (hmac : w.DeviceIoControl file tap_win_ioctl_get_mac [0, 0, 0, 0, 0, 0] = .ok out)
      (hro : newOverlapped w 0 = .ok ro) (hwo : newOverlapped w 1 = .ok wo)
      (hcfg : (configureTUN w config file).1 = Outcome.ret none)
      (hup : (setStatus w file true).1 = Outcome.ret none)
      (hifs : w.Interfaces = .error e) : SetupFailure w config file

/-- The set-up failure of `openDev` that returns no error: after the handle
`file` was opened and the MAC query and both completion contexts succeeded,
the TUN configuration panics. -/
inductive SetupPanic (w : World) (config : Config) (file : Nat) : Prop where
  | tunConfig (out : List Nat) (ro wo : Overlapped)
      (hmac : w.DeviceIoControl file tap_win_ioctl_get_mac [0, 0, 0, 0, 0, 0] = .ok out)
      (hro : newOverlapped w 0 = .ok ro) (hwo : newOverlapped w 1 = .ok wo)
      (htun : config.DeviceType = TUN)
      (h1 : (setTUN w file config.PlatformSpecificParams.Network).1 = Outcome.panic) :
      SetupPanic w config file

/-- A TUN configuration whose network is an IPv4-mapped IPv6 CIDR with a
64-bit prefix, on which `setTUN` panics. -/
def tunConfigMapped : Config :=
  { DeviceType := TUN
    PlatformSpecificParams :=
      { defaultPlatformSpecificParams with Network := "::ffff:192.168.56.2/64" } }

/-- A TUN configuration whose network is an IPv6 CIDR, which `setTUN`
rejects. -/
def tunConfigV6 : Config :=
  { DeviceType := TUN
    PlatformSpecificParams := { defaultPlatformSpecificParams with Network := "fe80::1/64" } }

/-- The decimal digits of a byte, without leading zeros. -/
def decimalByte (n : Nat) : List Char :=
  if n < 10 then [Char.ofNat (48 + n)]
  else if n < 100 then [Char.ofNat (48 + n / 10), Char.ofNat (48 + n % 10)]
  else [Char.ofNat (48 + n / 100), Char.ofNat (48 + n / 10 % 10), Char.ofNat (48 + n % 10)]

/-- The characters of the dotted-quad text `a.b.c.d`. -/
def dottedQuadChars (a b c d : Nat) : List Char :=
  decimalByte a ++ '.' :: (decimalByte b ++ '.' :: (decimalByte c ++ '.' :: decimalByte d))

/-- The dotted-quad text `a.b.c.d` of an IPv4 address. -/
def dottedQuad (a b c d : Nat) : String := String.mk (dottedQuadChars a b c d)

/-- The IPv4 CIDR text `a.b.c.d/n`. -/
def dottedCIDR (a b c d n : Nat) : String :=
  String.mk (dottedQuadChars a b c d ++ '/' :: decimalByte n)

/-- What follows a number in the input: the end of the string or a byte that
is no decimal digit. -/
def NoDigitAhead (rest : List Char) : Prop :=
  ∀ c ∈ rest.head?, ¬ (48 ≤ c.toNat ∧ c.toNat ≤ 57)

/-! ## The merge of parameters -/

/-- The merge in closed form: every field of the result as a conditional on
the same field of the override. -/
theorem baseOn_eq (p custom : PlatformSpecificParams) :
    p.baseOn custom =
      { Name := if custom.Name = "" then p.Name else custom.Name
        Driver := if custom.Driver = MacOSDriverSystem then p.Driver else custom.Driver
        Persist := if custom.Persist = true then true else p.Persist
        Permissions := if custom.Permissions = none then p.Permissions else custom.Permissions
        MultiQueue := if custom.MultiQueue = true then true else p.MultiQueue
        ComponentID := if custom.ComponentID = "" then p.ComponentID else custom.ComponentID
        Network := if custom.Network = "" then p.Network else custom.Network
        IsDHCP := if custom.IsDHCP = true then true else p.IsDHCP
        DHCPServer := if custom.DHCPServer = "" then p.DHCPServer else custom.DHCPServer
        DNS1 := if custom.DNS1 = "" then p.DNS1 else custom.DNS1
        DNS2 := if custom.DNS2 = "" then p.DNS2 else custom.DNS2 } := by
  rw [PlatformSpecificParams.mk.injEq]
  simp only [PlatformSpecificParams.baseOn, bne_iff_ne, ne_eq, ite_not,
    apply_ite PlatformSpecificParams.Name, apply_ite PlatformSpecificParams.Driver,
    apply_ite PlatformSpecificParams.Persist, apply_ite PlatformSpecificParams.Permissions,
    apply_ite PlatformSpecificParams.MultiQueue, apply_ite PlatformSpecificParams.ComponentID,
    apply_ite PlatformSpecificParams.Network, apply_ite PlatformSpecificParams.IsDHCP,
    apply_ite PlatformSpecificParams.DHCPServer, apply_ite PlatformSpecificParams.DNS1,
    apply_ite PlatformSpecificParams.DNS2, ite_self]
  refine ⟨?_, ?_, ?_, ?_, ?_, ?_, ?_, ?_, ?_, ?_, ?_⟩ <;> first | trivial | (split <;> simp_all)

/-- C1: every field of `p.baseOn custom` is the field of the override when that
field is non-zero (a non-empty string, a driver other than `MacOSDriverSystem`,
non-nil permissions, a `true` flag) and the field of the base otherwise. -/
theorem baseOn_field_rule (p custom : PlatformSpecificParams) :
    (p.baseOn custom).Name = (if custom.Name ≠ "" then custom.Name else p.Name) ∧
    (p.baseOn custom).Driver =
      (if custom.Driver ≠ MacOSDriverSystem then custom.Driver else p.Driver) ∧
    (p.baseOn custom).Persist =
      (if custom.Persist = true then custom.Persist else p.Persist) ∧
    (p.baseOn custom).Permissions =
      (if custom.Permissions ≠ none then custom.Permissions else p.Permissions) ∧
    (p.baseOn custom).MultiQueue =
      (if custom.MultiQueue = true then custom.MultiQueue else p.MultiQueue) ∧
    (p.baseOn custom).ComponentID =
      (if custom.ComponentID ≠ "" then custom.ComponentID else p.ComponentID) ∧
    (p.baseOn custom).Network =
      (if custom.Network ≠ "" then custom.Network else p.Network) ∧
    (p.baseOn custom).IsDHCP =
      (if custom.IsDHCP = true then custom.IsDHCP else p.IsDHCP) ∧
    (p.baseOn custom).DHCPServer =
      (if custom.DHCPServer ≠ "" then custom.DHCPServer else p.DHCPServer) ∧
    (p.baseOn custom).DNS1 = (if custom.DNS1 ≠ "" then custom.DNS1 else p.DNS1) ∧
    (p.baseOn custom).DNS2 = (if custom.DNS2 ≠ "" then custom.DNS2 else p.DNS2) := by
  rw [baseOn_eq]
  refine ⟨?_, ?_, ?_, ?_, ?_, ?_, ?_, ?_, ?_, ?_, ?_⟩ <;> (simp only []; split <;> simp_all)

/-- C2: the merge is idempotent, `d.baseOn(o).baseOn(o) = d.baseOn(o)`. -/
theorem baseOn_idempotent (d o : PlatformSpecificParams) :
    (d.baseOn o).baseOn o = d.baseOn o := by
  rw [baseOn_eq (d.baseOn o) o, baseOn_eq d o, PlatformSpecificParams.mk.injEq]
  refine ⟨?_, ?_, ?_, ?_, ?_, ?_, ?_, ?_, ?_, ?_, ?_⟩ <;> (simp only []; split <;> simp_all)

/-- C3: each merged flag is the logical OR of the base flag and the override
flag, so a `true` flag of the base (`Persist`, `MultiQueue`, `IsDHCP`) is never
turned into `false`, whatever the override. -/
theorem baseOn_flags_or (base override : PlatformSpecificParams) :
    ((base.baseOn override).Persist = (base.Persist || override.Persist) ∧
      (base.baseOn override).MultiQueue = (base.MultiQueue || override.MultiQueue) ∧
      (base.baseOn override).IsDHCP = (base.IsDHCP || override.IsDHCP)) ∧
    (base.Persist = true → (base.baseOn override).Persist = true) ∧
    (base.MultiQueue = true → (base.baseOn override).MultiQueue = true) ∧
    (base.IsDHCP = true → (base.baseOn override).IsDHCP = true) := by
  rw [baseOn_eq]
  refine ⟨⟨?_, ?_, ?_⟩, ?_, ?_, ?_⟩ <;> (simp only []; split <;> simp_all)

/-- C3 at a concrete input: a base with all three flags set, merged with the
default parameters (all flags `false`), keeps the three flags. -/
theorem baseOn_flags_or_witness :
    (({ defaultPlatformSpecificParams with
          Persist := true, MultiQueue := true, IsDHCP := true }).baseOn
        defaultPlatformSpecificParams).Persist = true ∧
    (({ defaultPlatformSpecificParams with
          Persist := true, MultiQueue := true, IsDHCP := true }).baseOn
        defaultPlatformSpecificParams).MultiQueue = true ∧
    (({ defaultPlatformSpecificParams with
          Persist := true, MultiQueue := true, IsDHCP := true }).baseOn
        defaultPlatformSpecificParams).IsDHCP = true :=
  ⟨(baseOn_flags_or _ _).2.1 rfl, (baseOn_flags_or _ _).2.2.1 rfl,
    (baseOn_flags_or _ _).2.2.2 rfl⟩

/-! ## The address parsers -/

/-- `To4` gives nil or exactly four bytes. -/
theorem To4_length {ip a : List Nat} (h : IP.To4 ip = some a) : a.length = 4 := by
  unfold IP.To4 at h
  split at h
  · simp only [Option.some.injEq] at h; subst h; assumption
  · split at h
    · rename_i h1 h2
      simp only [Option.some.injEq] at h
      subst h
      simp only [List.length_take, List.length_drop, h2.1, IPv6len]
      rfl
    · cases h

/-- The bytes of a valid IPv4 address string are four. -/
theorem ipv4Bytes_length {s : String} {a : List Nat} (h : ipv4Bytes s = some a) :
    a.length = 4 := by
  unfold ipv4Bytes at h
  cases hp : ParseIP s with
  | none => rw [hp] at h; cases h
  | some ip => rw [hp] at h; exact To4_length h

/-- `To4` of the 16-byte form of an IPv4 address gives its four bytes. -/
theorem To4_IPv4 (a b c d : Nat) : IP.To4 (IPv4 a b c d) = some [a, b, c, d] := by
  simp [IP.To4, IPv4, v4InV6Prefix, IPv4len, IPv6len]

/-- Eight iterations are enough for the loop of `parseIPv6`: with `k`
iterations left and `IPv6len ≤ i + 2 * k`, one more iteration changes
nothing. -/
theorem parseIPv6Loop_fuel (k : Nat) (st : V6State) (h : IPv6len ≤ st.i + 2 * k) :
    parseIPv6Loop (k + 1) st = parseIPv6Loop k st := by
  induction k generalizing st with
  | zero =>
    have h16 : ¬ st.i < IPv6len := by omega
    simp only [parseIPv6Loop, if_pos h16]
  | succ k ih =>
    rw [parseIPv6Loop]
    conv_rhs => rw [parseIPv6Loop]
    have e1 : ∀ s ip e, parseIPv6Loop (k + 1) { i := st.i + 2, s := s, ip := ip, ellipsis := e }
        = parseIPv6Loop k { i := st.i + 2, s := s, ip := ip, ellipsis := e } := by
      intro s ip e
      apply ih
      simp only
      omega
    simp only [e1]

/-- Any number of iterations from eight on gives the loop of `parseIPv6`,
started at index 0, the same result. -/
theorem parseIPv6Loop_eight (n : Nat) (st : V6State) (h : st.i = 0) :
    parseIPv6Loop (8 + n) st = parseIPv6Loop 8 st := by
  induction n with
  | zero => rfl
  | succ n ih =>
    rw [← ih, ← Nat.add_assoc]
    exact parseIPv6Loop_fuel (8 + n) st (by simp only [h, IPv6len]; omega)

/-- After a number that is followed by no digit, the scan of `dtoi` stops with
the value and the count it has. -/
theorem dtoiLoop_stop (rest : List Char) (h : NoDigitAhead rest) (n i : Nat) (hi : i ≠ 0) :
    dtoiLoop rest n i = (n, i, true) := by
  cases rest with
  | nil => simp [dtoiLoop, hi]
  | cons c cs =>
    have hc := h c (by simp)
    rw [dtoiLoop, if_neg hc, if_neg hi]

/-- If the scan of `dtoi` consumes all of `cs`, it gives the same result on
`cs` followed by input with no digit ahead. -/
theorem dtoiLoop_append (rest : List Char) (h : NoDigitAhead rest) (cs : List Char) :
    ∀ (n i m : Nat), dtoiLoop cs n i = (m, i + cs.length, true) →
      dtoiLoop (cs ++ rest) n i = (m, i + cs.length, true) := by
  induction cs with
  | nil =>
    intro n i m hm
    simp only [dtoiLoop] at hm
    split at hm
    · cases hm
    · rename_i hi
      simp only [Prod.mk.injEq, List.length_nil, Nat.add_zero, and_true] at hm
      subst hm
      simpa using dtoiLoop_stop rest h n i hi
  | cons c cs ih =>
    intro n i m hm
    rw [List.cons_append, dtoiLoop]
    rw [dtoiLoop] at hm
    split
    · rename_i hd
      rw [if_pos hd] at hm
      dsimp only at hm ⊢
      split
      · rename_i hbig
        rw [if_pos hbig] at hm
        cases hm
      · rename_i hbig
        rw [if_neg hbig] at hm
        have := ih (n * 10 + (c.toNat - 48)) (i + 1) m (by rw [hm]; simp; omega)
        rw [this]
        simp; omega
    · rename_i hd
      rw [if_neg hd] at hm
      split at hm
      · cases hm
      · simp only [Prod.mk.injEq, List.length_cons] at hm
        omega

set_option maxRecDepth 1000000 in
/-- The decimal text of every byte: `dtoi` reads it back, it has no leading
zero, no separator and at least one digit. -/
theorem decimalByte_table : ∀ n < 256,
    dtoiLoop (decimalByte n) 0 0 = (n, 0 + (decimalByte n).length, true) ∧
    ((decimalByte n).length > 1 → (decimalByte n).head? ≠ some '0') ∧
    (∀ c ∈ decimalByte n, c ≠ '.' ∧ c ≠ ':' ∧ c ≠ '/') ∧ decimalByte n ≠ [] := by
  decide

/-- `dtoi` on the decimal text of a byte followed by input with no digit ahead. -/
theorem dtoi_decimalByte (n : Nat) (hn : n < 256) (rest : List Char)
    (h : NoDigitAhead rest) :
    dtoi (decimalByte n ++ rest) = (n, (decimalByte n).length, true) := by
  have := dtoiLoop_append rest h (decimalByte n) 0 0 n (decimalByte_table n hn).1
  simpa [dtoi] using this

/-- One iteration of the loop of `parseIPv4` on the decimal text of a byte:
the first octet. -/
theorem parseIPv4Loop_first (k n : Nat) (hn : n < 256) (rest : List Char)
    (h : NoDigitAhead rest) (p : List Nat) :
    parseIPv4Loop (k + 1) 0 (decimalByte n ++ rest) p =
      parseIPv4Loop k 1 rest (p ++ [n]) := by
  obtain ⟨_, hz, _, hne⟩ := decimalByte_table n hn
  have hd := dtoi_decimalByte n hn rest h
  have hlen : (decimalByte n ++ rest).length ≠ 0 := by
    cases hb : decimalByte n with
    | nil => exact absurd hb hne
    | cons c cs => simp
  have hhead : (decimalByte n ++ rest).head? = (decimalByte n).head? := by
    cases hb : decimalByte n with
    | nil => exact absurd hb hne
    | cons c cs => simp
  rw [parseIPv4Loop, if_neg hlen]
  simp only [Nat.lt_irrefl, gt_iff_lt, false_and, if_false, hd, hhead]
  rw [if_neg (by simp; omega), if_neg (by intro hc; exact hz hc.1 hc.2)]
  simp

/-- One iteration of the loop of `parseIPv4` on a dot and the decimal text of
a byte: the octets after the first. -/
theorem parseIPv4Loop_next (k i n : Nat) (hi : i > 0) (hn : n < 256) (rest : List Char)
    (h : NoDigitAhead rest) (p : List Nat) :
    parseIPv4Loop (k + 1) i ('.' :: (decimalByte n ++ rest)) p =
      parseIPv4Loop k (i + 1) rest (p ++ [n]) := by
  obtain ⟨_, hz, _, hne⟩ := decimalByte_table n hn
  have hd := dtoi_decimalByte n hn rest h
  have hhead : (decimalByte n ++ rest).head? = (decimalByte n).head? := by
    cases hb : decimalByte n with
    | nil => exact absurd hb hne
    | cons c cs => simp
  rw [parseIPv4Loop, if_neg (by simp)]
  simp only [hi, gt_iff_lt, true_and, List.head?_cons, ne_eq, not_true_eq_false, if_false,
    if_true, List.tail_cons, hd, hhead]
  rw [if_neg (by simp; omega), if_neg (by intro hc; exact hz hc.1 hc.2)]
  simp

/-- Input that starts with a dot, or is empty, has no digit ahead. -/
theorem noDigitAhead_dot (rest : List Char) : NoDigitAhead ('.' :: rest) ∧ NoDigitAhead [] := by
  constructor
  · intro c hc
    simp only [List.head?_cons, Option.mem_def, Option.some.injEq] at hc
    subst hc
    decide
  · intro c hc
    cases hc

/-- `parseIPv4` reads the dotted-quad text of four bytes back. -/
theorem parseIPv4_dottedQuad (a b c d : Nat) (ha : a < 256) (hb : b < 256) (hc : c < 256)
    (hd : d < 256) : parseIPv4 (dottedQuadChars a b c d) = some (IPv4 a b c d) := by
  unfold parseIPv4 dottedQuadChars IPv4len
  rw [parseIPv4Loop_first 3 a ha _ (noDigitAhead_dot _).1,
    parseIPv4Loop_next 2 1 b (by omega) hb _ (noDigitAhead_dot _).1,
    parseIPv4Loop_next 1 2 c (by omega) hc _ (noDigitAhead_dot _).1]
  have h4 := parseIPv4Loop_next 0 3 d (by omega) hd [] (noDigitAhead_dot []).2
  rw [List.append_nil] at h4
  rw [h4]
  simp [parseIPv4Loop]

/-- The scan of `ParseIP` passes over bytes that are no separator and hands the
input to `parseIPv4` at the first dot. -/
theorem parseIPScan_dot (all rest : List Char) (cs : List Char)
    (h : ∀ c ∈ cs, c ≠ '.' ∧ c ≠ ':' ∧ c ≠ '/') :
    parseIPScan all (cs ++ '.' :: rest) = parseIPv4 all := by
  induction cs with
  | nil => simp [parseIPScan]
  | cons c cs ih =>
    have hc := h c (by simp)
    rw [List.cons_append, parseIPScan, if_neg hc.1, if_neg hc.2.1]
    exact ih (fun x hx => h x (by simp [hx]))

/-- The dotted-quad text of four bytes is a valid IPv4 address for
`setDHCPDNS`, with these four bytes. -/
theorem ipv4Bytes_dottedQuad (a b c d : Nat) (ha : a < 256) (hb : b < 256) (hc : c < 256)
    (hd : d < 256) : ipv4Bytes (dottedQuad a b c d) = some [a, b, c, d] := by
  have hscan : ParseIP (dottedQuad a b c d) = parseIPv4 (dottedQuadChars a b c d) := by
    show parseIPScan (dottedQuadChars a b c d) (dottedQuadChars a b c d) = _
    conv_lhs => arg 2; unfold dottedQuadChars
    exact parseIPScan_dot _ _ _ (decimalByte_table a ha).2.2.1
  unfold ipv4Bytes
  rw [hscan, parseIPv4_dottedQuad a b c d ha hb hc hd, Option.some_bind, To4_IPv4]

/-- The index of the first slash, when none occurs before it. -/
theorem indexOf_slash (cs rest : List Char) (h : ∀ c ∈ cs, c ≠ '/') :
    (cs ++ '/' :: rest).indexOf '/' = cs.length := by
  induction cs with
  | nil => simp [List.indexOf_cons]
  | cons c cs ih =>
    have hc := h c (by simp)
    rw [List.cons_append, List.indexOf_cons]
    have hne : (c == '/') = false := by simpa using hc
    rw [hne, cond_false, ih (fun x hx => h x (by simp [hx])), List.length_cons]

/-- The dotted-quad text has no slash. -/
theorem dottedQuadChars_no_slash (a b c d : Nat) (ha : a < 256) (hb : b < 256)
    (hc : c < 256) (hd : d < 256) : ∀ x ∈ dottedQuadChars a b c d, x ≠ '/' := by
  intro x hx
  have h1 := (decimalByte_table a ha).2.2.1
  have h2 := (decimalByte_table b hb).2.2.1
  have h3 := (decimalByte_table c hc).2.2.1
  have h4 := (decimalByte_table d hd).2.2.1
  simp only [dottedQuadChars, List.mem_append, List.mem_cons] at hx
  rcases hx with h | h | h | h | h | h | h
  · exact (h1 x h).2.2
  · subst h; decide
  · exact (h2 x h).2.2
  · subst h; decide
  · exact (h3 x h).2.2
  · subst h; decide
  · exact (h4 x h).2.2

/-- The loop of `CIDRMask` writes `l` bytes. -/
theorem cidrMaskLoop_length (l n : Nat) : (cidrMaskLoop l n).length = l := by
  induction l generalizing n with
  | zero => rfl
  | succ l ih =>
    rw [cidrMaskLoop]
    split <;> simp [ih]

/-- `ParseCIDR` on the text `a.b.c.d/n`: the 16-byte form of the address, the
4-byte mask of `n` one bits and the address under that mask. -/
theorem ParseCIDR_dottedCIDR (a b c d n : Nat) (ha : a < 256) (hb : b < 256)
    (hc : c < 256) (hd : d < 256) (hn : n ≤ 32) :
    ParseCIDR (dottedCIDR a b c d n) =
      .ok (IPv4 a b c d,
        { IP := some (List.zipWith (fun x y => x &&& y) [a, b, c, d] (cidrMaskLoop 4 n))
          Mask := some (cidrMaskLoop 4 n) }) := by
  have hidx := indexOf_slash (dottedQuadChars a b c d) (decimalByte n)
    (dottedQuadChars_no_slash a b c d ha hb hc hd)
  have hdt : dtoi (decimalByte n) = (n, (decimalByte n).length, true) := by
    have := dtoi_decimalByte n (by omega) [] (noDigitAhead_dot []).2
    simpa using this
  have hm := cidrMaskLoop_length 4 n
  have hmask : IP.Mask (IPv4 a b c d) (cidrMaskLoop 4 n) =
      some (List.zipWith (fun x y => x &&& y) [a, b, c, d] (cidrMaskLoop 4 n)) := by
    unfold IP.Mask
    simp [hm, IPv4, v4InV6Prefix, IPv4len, IPv6len]
  unfold ParseCIDR
  have htl : (dottedCIDR a b c d n).toList =
      dottedQuadChars a b c d ++ '/' :: decimalByte n := rfl
  simp only [htl, hidx, List.take_left', List.drop_left',
    parseIPv4_dottedQuad a b c d ha hb hc hd, hdt]
  have hdrop : ∀ (xs ys : List Char) (x : Char),
      List.drop (xs.length + 1) (xs ++ x :: ys) = ys := by
    intro xs ys x
    induction xs with
    | nil => rfl
    | cons z zs ih => simp
  have hcm : CIDRMask n (8 * IPv4len) = some (cidrMaskLoop 4 n) := by
    unfold CIDRMask
    simp [IPv4len, IPv6len]
    omega
  simp only [hdrop, hdt]
  rw [if_neg (by simp)]
  have hsome : (some (IPv4 a b c d) = none) = False := by simp
  have h32 : ¬ (true = false ∨ (decimalByte n).length ≠ (decimalByte n).length ∨
      n > 8 * IPv4len) := by
    simp only [IPv4len]
    rintro (h | h | h)
    · cases h
    · exact h rfl
    · omega
  simp only [hsome, if_false, hcm, Option.some_bind, hmask, if_neg h32]

/-! ## The TUN configuration -/

/-- `setTUN` on the inputs it rejects and on the CIDR strings with a 4-byte
mask: an unparsable string and an address without IPv4 form give an error and
no control call; with a 4-byte mask the payload is the local address, the
remote network address and the mask. -/
theorem setTUN_ipv4_mask (w : World) (fd : Nat) (network : String) :
    (∀ e, ParseCIDR network = .error e →
      setTUN w fd network =
        (.ret (some (.fmt ("Failed to parse network CIDR in config, " ++ e))), [])) ∧
    (∀ l r, ParseCIDR network = .ok (l, r) → IP.To4 l = none →
      setTUN w fd network =
        (.ret (some (.fmt ("Provided network(" ++ network
          ++ ") is not a valid IPv4 address"))), [])) ∧
    (∀ l r a b m, ParseCIDR network = .ok (l, r) → IP.To4 l = some a →
      r.IP.bind IP.To4 = some b → r.Mask = some m → m.length = 4 →
      (setTUN w fd network).2 = [Event.ioctl fd tap_ioctl_config_tun (a ++ b ++ m)] ∧
        (a ++ b ++ m).length = 12) := by
  refine ⟨?_, ?_, ?_⟩
  · intro e he
    unfold setTUN
    simp only [he]
  · intro l r hp hl
    unfold setTUN
    simp only [hp, hl, if_true]
  · intro l r a b m hp hl hb hm hlen
    have ha := To4_length hl
    have hb4 : b.length = 4 := by
      cases hr : r.IP with
      | none => rw [hr] at hb; cases hb
      | some rip => rw [hr] at hb; exact To4_length hb
    have h12 : (a ++ b ++ m).length = 12 := by
      simp only [List.length_append, ha, hb4, hlen]
    unfold setTUN
    have s1 : sliceTo4 (some a) = some a := by
      simp only [sliceTo4, ha, Nat.lt_irrefl, if_false]
      rw [← ha, List.take_length]
    have s2 : sliceTo4 (some b) = some b := by
      simp only [sliceTo4, hb4, Nat.lt_irrefl, if_false]
      rw [← hb4, List.take_length]
    have s3 : sliceTo4 (some m) = some m := by
      simp only [sliceTo4, hlen, Nat.lt_irrefl, if_false]
      rw [← hlen, List.take_length]
    simp only [hp, hl, hb, hm, s1, s2, s3, h12]
    refine ⟨?_, trivial⟩
    cases w.DeviceIoControl fd tap_ioctl_config_tun (a ++ b ++ m) <;> simp

/-- The network of the default parameters: `setTUN` sends
`192.168.56.2`, `192.168.56.0`, `255.255.255.0`. -/
theorem setTUN_default_network (w : World) (fd : Nat) :
    (setTUN w fd "192.168.56.2/24").2 =
      [Event.ioctl fd tap_ioctl_config_tun
        [192, 168, 56, 2, 192, 168, 56, 0, 255, 255, 255, 0]] :=
  ((setTUN_ipv4_mask w fd "192.168.56.2/24").2.2 (IPv4 192 168 56 2)
    { IP := some [192, 168, 56, 0], Mask := some [255, 255, 255, 0] }
    [192, 168, 56, 2] [192, 168, 56, 0] [255, 255, 255, 0] (by rfl) (by rfl) (by rfl)
    (by rfl) (by rfl)).1

/-- `setTUN` on the text `a.b.c.d/n` of an IPv4 CIDR: one control call, with
the 12-byte payload made of the local address, the local address under the
netmask and the netmask. -/
theorem setTUN_dottedCIDR (w : World) (fd a b c d n : Nat) (ha : a < 256) (hb : b < 256)
    (hc : c < 256) (hd : d < 256) (hn : n ≤ 32) :
    (setTUN w fd (dottedCIDR a b c d n)).2 =
      [Event.ioctl fd tap_ioctl_config_tun
        ([a, b, c, d] ++ List.zipWith (fun x y => x &&& y) [a, b, c, d] (cidrMaskLoop 4 n)
          ++ cidrMaskLoop 4 n)] ∧
    ([a, b, c, d] ++ List.zipWith (fun x y => x &&& y) [a, b, c, d] (cidrMaskLoop 4 n)
      ++ cidrMaskLoop 4 n).length = 12 := by
  have hm := cidrMaskLoop_length 4 n
  have hz : (List.zipWith (fun x y => x &&& y) [a, b, c, d] (cidrMaskLoop 4 n)).length = 4 := by
    simp [hm]
  exact (setTUN_ipv4_mask w fd (dottedCIDR a b c d n)).2.2 _ _ [a, b, c, d] _ _
    (ParseCIDR_dottedCIDR a b c d n ha hb hc hd hn) (To4_IPv4 a b c d)
    (by simp only [Option.some_bind, IP.To4, hz, IPv4len, if_true]) rfl hm

/-- C4, the failing inputs: for the IPv4-mapped CIDR `::ffff:192.168.56.2/120`
`setTUN` issues the control call with the first four bytes of the 16-byte mask,
`255.255.255.255`, in the place of the netmask, next to the remote network
`192.168.56.0`; for `::ffff:192.168.56.2/64` it panics, with no error returned
and no control call issued. -/
theorem setTUN_mapped_cidr (w : World) (fd : Nat) :
    (setTUN w fd "::ffff:192.168.56.2/120").2 =
      [Event.ioctl fd tap_ioctl_config_tun
        [192, 168, 56, 2, 192, 168, 56, 0, 255, 255, 255, 255]] ∧
    setTUN w fd "::ffff:192.168.56.2/64" = (Outcome.panic, []) := by
  constructor
  · have h : setTUN w fd "::ffff:192.168.56.2/120" =
        match w.DeviceIoControl fd tap_ioctl_config_tun
          [192, 168, 56, 2, 192, 168, 56, 0, 255, 255, 255, 255] with
        | .error e => (.ret (some (.errno e)), [.ioctl fd tap_ioctl_config_tun
            [192, 168, 56, 2, 192, 168, 56, 0, 255, 255, 255, 255]])
        | .ok _ => (.ret none, [.ioctl fd tap_ioctl_config_tun
            [192, 168, 56, 2, 192, 168, 56, 0, 255, 255, 255, 255]]) := by rfl
    rw [h]
    split <;> rfl
  · rfl

/-! ## The DHCP DNS option -/

/-- With a valid primary address `setDHCPDNS` issues exactly one device-control
call, with the payload `dnsPayload`, and returns what the call gives. -/
theorem setDHCPDNS_valid (w : World) (fd : Nat) (dns1 dns2 : String) (a : List Nat)
    (h : ipv4Bytes dns1 = some a) :
    setDHCPDNS w fd dns1 dns2 =
      (match w.DeviceIoControl fd tap_win_ioctl_config_dhcp_set_opt
          (dnsPayload a (ipv4Bytes dns2)) with
        | .error e => .ret (some (.fmt ("Configure DHCP DNS failed: " ++ w.errnoText e)))
        | .ok _ => .ret none,
        [.ioctl fd tap_win_ioctl_config_dhcp_set_opt (dnsPayload a (ipv4Bytes dns2))]) := by
  have hne : dns1 ≠ "" := by
    rintro rfl
    have h0 : ipv4Bytes "" = none := by decide
    rw [h0] at h
    cases h
  have ha := ipv4Bytes_length h
  unfold ipv4Bytes at h
  cases hp : ParseIP dns1 with
  | none => rw [hp] at h; cases h
  | some ip =>
    rw [hp] at h
    simp only [Option.some_bind] at h
    obtain ⟨a0, a1, a2, a3, rfl⟩ : ∃ a0 a1 a2 a3, a = [a0, a1, a2, a3] := by
      match a, ha with
      | [a0, a1, a2, a3], _ => exact ⟨a0, a1, a2, a3, rfl⟩
    unfold setDHCPDNS
    rw [if_neg hne]
    simp only [hp, h]
    cases h2 : ipv4Bytes dns2 with
    | none =>
      unfold ipv4Bytes at h2
      simp only [h2, dnsPayload]
      have hP : List.take 2 (([0, 0, 0, 0, 0, 0].set 0 6).set 1 ([a0, a1, a2, a3].length % 256))
          ++ goCopy (List.drop 2 (([0, 0, 0, 0, 0, 0].set 0 6).set 1
            ([a0, a1, a2, a3].length % 256))) [a0, a1, a2, a3] = [6, 4, a0, a1, a2, a3] := rfl
      rw [hP]
      cases w.DeviceIoControl fd tap_win_ioctl_config_dhcp_set_opt [6, 4, a0, a1, a2, a3] <;> rfl
    | some b =>
      have hb := ipv4Bytes_length h2
      obtain ⟨b0, b1, b2, b3, rfl⟩ : ∃ b0 b1 b2 b3, b = [b0, b1, b2, b3] := by
        match b, hb with
        | [b0, b1, b2, b3], _ => exact ⟨b0, b1, b2, b3, rfl⟩
      unfold ipv4Bytes at h2
      simp only [h2, dnsPayload]
      have hP : List.take 2 (([0, 0, 0, 0, 0, 0].set 0 6).set 1 ([a0, a1, a2, a3].length % 256))
          ++ goCopy (List.drop 2 (([0, 0, 0, 0, 0, 0].set 0 6).set 1
            ([a0, a1, a2, a3].length % 256))) [a0, a1, a2, a3] = [6, 4, a0, a1, a2, a3] := rfl
      rw [hP]
      have hQ : [6, 4, a0, a1, a2, a3].set 1
          (([6, 4, a0, a1, a2, a3].getD 1 0 + [b0, b1, b2, b3].length % 256) % 256)
          ++ [b0, b1, b2, b3] = 6 :: 8 :: ([a0, a1, a2, a3] ++ [b0, b1, b2, b3]) := rfl
      rw [hQ]
      cases w.DeviceIoControl fd tap_win_ioctl_config_dhcp_set_opt
        (6 :: 8 :: ([a0, a1, a2, a3] ++ [b0, b1, b2, b3])) <;> rfl

/-- C5: for a primary DNS that is a valid IPv4 address (bytes `a`), the payload
of the one control call of `setDHCPDNS` has byte 0 = 6, byte 1 = the number of
address bytes that follow, then the 4 bytes of `dns1`, then the 4 bytes of
`dns2` exactly when `dns2` is a valid IPv4 address: 6 bytes with byte 1 = 4
when `dns2` is empty or malformed, 10 bytes with byte 1 = 8 otherwise.  The
empty string is no valid address and every dotted quad `a.b.c.d` is one, with
bytes `a, b, c, d`.  `"8.8.8.8"`, `""` gives `[6,4,8,8,8,8]` and `"8.8.8.8"`,
`"8.8.4.4"` gives `[6,8,8,8,8,8,8,8,4,4]`. -/
theorem setDHCPDNS_payload :
    (∀ (w : World) (fd : Nat) (dns1 dns2 : String) (a : List Nat),
      ipv4Bytes dns1 = some a →
      ∃ payload : List Nat,
        (setDHCPDNS w fd dns1 dns2).2 =
          [Event.ioctl fd tap_win_ioctl_config_dhcp_set_opt payload] ∧
        payload.getD 0 0 = 6 ∧ payload.getD 1 0 = payload.length - 2 ∧
        payload.drop 2 = a ++ (ipv4Bytes dns2).getD [] ∧ a.length = 4 ∧
        (ipv4Bytes dns2 = none → payload = 6 :: 4 :: a ∧ payload.length = 6) ∧
        (∀ b, ipv4Bytes dns2 = some b →
          payload = 6 :: 8 :: (a ++ b) ∧ b.length = 4 ∧ payload.length = 10)) ∧
    ipv4Bytes "" = none ∧
    (∀ a b c d : Nat, a < 256 → b < 256 → c < 256 → d < 256 →
      ipv4Bytes (dottedQuad a b c d) = some [a, b, c, d]) ∧
    (∀ (w : World) (fd : Nat), (setDHCPDNS w fd "8.8.8.8" "").2 =
      [Event.ioctl fd tap_win_ioctl_config_dhcp_set_opt [6, 4, 8, 8, 8, 8]]) ∧
    (∀ (w : World) (fd : Nat), (setDHCPDNS w fd "8.8.8.8" "8.8.4.4").2 =
      [Event.ioctl fd tap_win_ioctl_config_dhcp_set_opt [6, 8, 8, 8, 8, 8, 8, 8, 4, 4]]) := by
  refine ⟨?_, by decide, ipv4Bytes_dottedQuad, ?_, ?_⟩
  · intro w fd dns1 dns2 a h
    have ha := ipv4Bytes_length h
    refine ⟨dnsPayload a (ipv4Bytes dns2), ?_, ?_⟩
    · rw [setDHCPDNS_valid w fd dns1 dns2 a h]
    · cases h2 : ipv4Bytes dns2 with
      | none => simp [dnsPayload, ha]
      | some b =>
        have hb := ipv4Bytes_length h2
        simp [dnsPayload, ha, hb]
  · intro w fd
    rw [setDHCPDNS_valid w fd "8.8.8.8" "" [8, 8, 8, 8] (by decide)]
    rfl
  · intro w fd
    rw [setDHCPDNS_valid w fd "8.8.8.8" "8.8.4.4" [8, 8, 8, 8] (by decide)]
    rfl

/-- C5 at a concrete input: the primary `"1.1.1.1"` with the IPv6 secondary
`"::1"`, which has no IPv4 form, gives the 6-byte payload. -/
theorem setDHCPDNS_payload_witness :
    ipv4Bytes "1.1.1.1" = some [1, 1, 1, 1] ∧
    ∃ payload : List Nat,
      (setDHCPDNS
          { OpenKey := fun _ => .error (.errno 2), CreateFile := fun _ => .ok 7,
            DeviceIoControl := fun _ _ _ => .ok [], CreateEvent := fun k => (k + 1, 0),
            Interfaces := .ok [], errnoText := fun _ => "" } 7 "1.1.1.1" "::1").2 =
        [Event.ioctl 7 tap_win_ioctl_config_dhcp_set_opt payload] ∧
      payload = [6, 4, 1, 1, 1, 1] :=
  ⟨by decide, by
    obtain ⟨payload, h1, _, _, _, _, h2, _⟩ := setDHCPDNS_payload.1
      { OpenKey := fun _ => .error (.errno 2), CreateFile := fun _ => .ok 7,
        DeviceIoControl := fun _ _ _ => .ok [], CreateEvent := fun k => (k + 1, 0),
        Interfaces := .ok [], errnoText := fun _ => "" } 7 "1.1.1.1" "::1" [1, 1, 1, 1]
      (by decide)
    exact ⟨payload, h1, (h2 (by decide)).1⟩⟩

/-- C6: `setDHCPDNS` with an empty primary DNS returns nil and issues no
control call, whatever the secondary; with a non-empty primary that is not a
valid IPv4 address it returns an error and issues no control call; with a valid
primary it issues the control call for every secondary, and its result is the
result of that call alone (nil when the call succeeds). -/
theorem setDHCPDNS_primary_secondary :
    (∀ (w : World) (fd : Nat) (dns2 : String),
      setDHCPDNS w fd "" dns2 = (Outcome.ret none, [])) ∧
    (∀ (w : World) (fd : Nat) (dns1 dns2 : String),
      dns1 ≠ "" → ipv4Bytes dns1 = none →
      setDHCPDNS w fd dns1 dns2 = (Outcome.ret (some (GoError.fmt
        ("Provided dns(" ++ dns1 ++ ") is not a valid IPv4 address"))), [])) ∧
    (∀ (w : World) (fd : Nat) (dns1 dns2 : String) (a : List Nat),
      ipv4Bytes dns1 = some a →
      ∃ payload : List Nat,
        (setDHCPDNS w fd dns1 dns2).2 =
          [Event.ioctl fd tap_win_ioctl_config_dhcp_set_opt payload] ∧
        (∀ out, w.DeviceIoControl fd tap_win_ioctl_config_dhcp_set_opt payload = .ok out →
          (setDHCPDNS w fd dns1 dns2).1 = Outcome.ret none) ∧
        (∀ e, w.DeviceIoControl fd tap_win_ioctl_config_dhcp_set_opt payload = .error e →
          (setDHCPDNS w fd dns1 dns2).1 = Outcome.ret (some (GoError.fmt
            ("Configure DHCP DNS failed: " ++ w.errnoText e))))) := by
  refine ⟨?_, ?_, ?_⟩
  · intro w fd dns2
    rfl
  · intro w fd dns1 dns2 hne h
    unfold setDHCPDNS
    rw [if_neg hne]
    unfold ipv4Bytes at h
    cases hp : ParseIP dns1 with
    | none => rfl
    | some ip =>
      rw [hp] at h
      simp only [Option.some_bind] at h
      simp only [h]
  · intro w fd dns1 dns2 a h
    refine ⟨dnsPayload a (ipv4Bytes dns2), ?_, ?_, ?_⟩
    · rw [setDHCPDNS_valid w fd dns1 dns2 a h]
    · intro out ho
      rw [setDHCPDNS_valid w fd dns1 dns2 a h]
      simp only [ho]
    · intro e he
      rw [setDHCPDNS_valid w fd dns1 dns2 a h]
      simp only [he]

/-- C6 at concrete inputs: the malformed primary `"dns.example"` is rejected
without a control call, and the valid primary `"8.8.8.8"` with the malformed
secondary `"not-an-address"` reaches the control call. -/
theorem setDHCPDNS_primary_secondary_witness :
    (setDHCPDNS
        { OpenKey := fun _ => .error (.errno 2), CreateFile := fun _ => .ok 7,
          DeviceIoControl := fun _ _ _ => .ok [], CreateEvent := fun k => (k + 1, 0),
          Interfaces := .ok [], errnoText := fun _ => "" } 7 "dns.example" "8.8.4.4" =
      (Outcome.ret (some (GoError.fmt
        ("Provided dns(" ++ "dns.example" ++ ") is not a valid IPv4 address"))), [])) ∧
    ∃ payload : List Nat,
      (setDHCPDNS
          { OpenKey := fun _ => .error (.errno 2), CreateFile := fun _ => .ok 7,
            DeviceIoControl := fun _ _ _ => .ok [], CreateEvent := fun k => (k + 1, 0),
            Interfaces := .ok [], errnoText := fun _ => "" } 7 "8.8.8.8" "not-an-address").2 =
        [Event.ioctl 7 tap_win_ioctl_config_dhcp_set_opt payload] :=
  ⟨setDHCPDNS_primary_secondary.2.1 _ 7 "dns.example" "8.8.4.4" (by decide) (by decide),
    (setDHCPDNS_primary_secondary.2.2 _ 7 "8.8.8.8" "not-an-address" [8, 8, 8, 8]
      (by decide)).imp fun _ h => h.1⟩

/-! ## The registry as a list of adapter entries -/

/-- A string has length 0 exactly when it is the empty string. -/
theorem string_length_pos_iff (s : String) : s.length > 0 ↔ s ≠ "" := by
  rw [String.length, ne_eq, String.ext_iff]
  cases s.data <;> simp

/-- The scan of `getdeviceid` finds the instance identifier of the first
accepted entry. -/
theorem getdeviceidLoop_eq (w : World) (componentID interfaceName : String)
    (keys : List String) :
    getdeviceidLoop w componentID interfaceName keys =
      ((regEntries w keys).find? (Entry.accepted componentID interfaceName)).bind
        Entry.NetCfgInstanceId := by
  induction keys with
  | nil => rfl
  | cons v keys ih =>
    unfold getdeviceidLoop
    simp only [regEntries, List.map_cons, List.find?_cons] at ih ⊢
    rw [ih]
    cases h1 : w.OpenKey (tapDriverKey ++ "\\" ++ v) with
    | error e =>
      have hacc : Entry.accepted componentID interfaceName (entryOf w v) = false := by
        simp [entryOf, h1, Entry.accepted, Entry.matches]
      simp only [hacc]
    | ok key =>
      simp only []
      cases h2 : key.GetStringValue "ComponentId" with
      | error e =>
        have hacc : Entry.accepted componentID interfaceName (entryOf w v) = false := by
          simp [entryOf, h1, h2, Entry.accepted, Entry.matches, Except.toOption]
        simp only [hacc]
      | ok val =>
        simp only []
        by_cases hv : val = componentID
        · rw [if_pos hv]
          cases h3 : key.GetStringValue "NetCfgInstanceId" with
          | error e =>
            have hacc : Entry.accepted componentID interfaceName (entryOf w v) = false := by
              simp [entryOf, h1, h2, h3, Entry.accepted, Entry.matches, Except.toOption]
            simp only [hacc]
          | ok inst =>
            simp only []
            by_cases hn : interfaceName = ""
            · have hlen : ¬ interfaceName.length > 0 := by
                rw [string_length_pos_iff]; simpa using hn
              rw [if_neg hlen]
              have hacc : Entry.accepted componentID interfaceName (entryOf w v) = true := by
                simp [entryOf, h1, h2, h3, hv, hn, Entry.accepted, Entry.matches,
                  Except.toOption]
              have hinst : (entryOf w v).NetCfgInstanceId = some inst := by
                simp [entryOf, h1, h3, Except.toOption]
              simp only [hacc, Option.some_bind, hinst]
            · have hlen : interfaceName.length > 0 := by
                rw [string_length_pos_iff]; exact hn
              rw [if_pos hlen]
              have hinst : (entryOf w v).NetCfgInstanceId = some inst := by
                simp [entryOf, h1, h3, Except.toOption]
              cases h4 : w.OpenKey (netConfigKey ++ "\\" ++ inst ++ "\\Connection") with
              | error e =>
                have hacc : Entry.accepted componentID interfaceName (entryOf w v) = false := by
                  simp [entryOf, h1, h2, h3, h4, hn, Entry.accepted, Entry.matches,
                    Except.toOption]
                simp only [hacc]
              | ok k2 =>
                simp only []
                cases h5 : k2.GetStringValue "Name" with
                | error e =>
                  have hacc :
                      Entry.accepted componentID interfaceName (entryOf w v) = false := by
                    simp [entryOf, h1, h2, h3, h4, h5, hn, Entry.accepted, Entry.matches,
                      Except.toOption]
                  simp only [hacc]
                | ok name =>
                  simp only []
                  by_cases hm : name = interfaceName
                  · have hacc :
                        Entry.accepted componentID interfaceName (entryOf w v) = true := by
                      simp [entryOf, h1, h2, h3, h4, h5, hv, hm, Entry.accepted,
                        Entry.matches, Except.toOption]
                    simp only [hacc, Option.some_bind, hinst, hm, ne_eq, not_true_eq_false,
                      if_false]
                  · have hacc :
                        Entry.accepted componentID interfaceName (entryOf w v) = false := by
                      simp [entryOf, h1, h2, h3, h4, h5, hn, hm, Entry.accepted,
                        Entry.matches, Except.toOption]
                    simp only [hacc, ne_eq, hm, not_false_eq_true, if_true]
        · rw [if_neg hv]
          have hacc : Entry.accepted componentID interfaceName (entryOf w v) = false := by
            simp [entryOf, h1, h2, hv, Entry.accepted, Entry.matches, Except.toOption]
          simp only [hacc]

/-- `getdeviceid` in terms of the list of adapter entries: it returns the
instance identifier of the first accepted entry, and fails with one of its two
messages when no entry is accepted. -/
theorem getdeviceid_eq (w : World) (componentID interfaceName : String) (k : RegKey)
    (keys : List String) (hk : w.OpenKey tapDriverKey = .ok k)
    (hs : k.ReadSubKeyNames = .ok keys) :
    getdeviceid w componentID interfaceName =
      match ((regEntries w keys).find? (Entry.accepted componentID interfaceName)).bind
          Entry.NetCfgInstanceId with
      | some val => .ok val
      | none =>
        if interfaceName.length > 0 then
          .error (.fmt ("Failed to find the tap device in registry with specified ComponentId '"
            ++ componentID ++ "' and InterfaceName '" ++ interfaceName
            ++ "', TAP driver may be not installed or you may have specified an interface name that doesn't exist"))
        else
          .error (.fmt ("Failed to find the tap device in registry with specified ComponentId '"
            ++ componentID ++ "', TAP driver may be not installed")) := by
  unfold getdeviceid
  simp only [hk, hs, getdeviceidLoop_eq]

/-- C7, as stated, fails: with no interface name wanted, the first entry whose
`ComponentId` equals `"tap0901"` has no `NetCfgInstanceId`, and `getdeviceid`
returns the identifier of the second entry; and when that first entry is the
only one, an entry matches and `getdeviceid` fails all the same. -/
theorem getdeviceid_first_match_counterexample :
    ((regEntries registryMissingInstance ["0000", "0001"]).find?
        (Entry.matches "tap0901" "") =
      some { ComponentId := some "tap0901", NetCfgInstanceId := none, Name := none } ∧
      (getdeviceid registryMissingInstance "tap0901" "").toOption = some "B-1") ∧
    ((∃ e ∈ regEntries registryOnlyMissingInstance ["0000"],
        Entry.matches "tap0901" "" e = true) ∧
      (getdeviceid registryOnlyMissingInstance "tap0901" "").toOption = none) := by
  refine ⟨⟨by decide, by decide⟩, ⟨⟨_, List.mem_singleton.mpr rfl, by decide⟩, by decide⟩⟩

/-- C7, amended: over the ordered list of adapter entries, `getdeviceid`
returns the `NetCfgInstanceId` of the first entry that has one, whose
`ComponentId` equals `componentID` and, when `interfaceName` is non-empty,
whose connection `Name` equals `interfaceName`; what it returns is never the
identifier of an entry whose name differs from a non-empty `interfaceName`; it
fails exactly when no such entry exists, and the message of the error then
contains `componentID` and, when one was given, `interfaceName`. -/
theorem getdeviceid_first_accepted (w : World) (componentID interfaceName : String)
    (k : RegKey) (keys : List String) (hk : w.OpenKey tapDriverKey = .ok k)
    (hs : k.ReadSubKeyNames = .ok keys) :
    (∀ e, (regEntries w keys).find? (Entry.accepted componentID interfaceName) = some e →
      ∃ id, e.NetCfgInstanceId = some id ∧
        getdeviceid w componentID interfaceName = .ok id) ∧
    (∀ id, getdeviceid w componentID interfaceName = .ok id →
      ∃ e ∈ regEntries w keys, e.ComponentId = some componentID ∧
        e.NetCfgInstanceId = some id ∧
        (interfaceName ≠ "" → e.Name = some interfaceName)) ∧
    ((∃ err, getdeviceid w componentID interfaceName = .error err) ↔
      ∀ e ∈ regEntries w keys, Entry.accepted componentID interfaceName e = false) ∧
    (∀ err, getdeviceid w componentID interfaceName = .error err →
      ∃ msg, err = GoError.fmt msg ∧ Mentions msg componentID ∧
        (interfaceName ≠ "" → Mentions msg interfaceName)) := by
  have hget := getdeviceid_eq w componentID interfaceName k keys hk hs
  have hsome : ∀ e, (regEntries w keys).find? (Entry.accepted componentID interfaceName)
      = some e → ∃ id, e.NetCfgInstanceId = some id := by
    intro e he
    have hacc := List.find?_some he
    simp only [Entry.accepted, Bool.and_eq_true] at hacc
    exact Option.isSome_iff_exists.mp hacc.2
  cases hf : (regEntries w keys).find? (Entry.accepted componentID interfaceName) with
  | some e =>
    obtain ⟨id, hid⟩ := hsome e hf
    have hacc := List.find?_some hf
    have hmem := List.mem_of_find?_eq_some hf
    simp only [Entry.accepted, Entry.matches, Bool.and_eq_true, Bool.or_eq_true,
      decide_eq_true_eq] at hacc
    rw [hf] at hget
    simp only [Option.some_bind, hid] at hget
    refine ⟨?_, ?_, ?_, ?_⟩
    · intro e2 he2
      cases he2
      exact ⟨id, hid, hget⟩
    · intro id2 h2
      rw [hget] at h2
      cases h2
      exact ⟨e, hmem, hacc.1.1, hid, fun hne => hacc.1.2.resolve_left hne⟩
    · constructor
      · rintro ⟨err, herr⟩
        rw [hget] at herr
        cases herr
      · intro hall
        have := hall e hmem
        rw [List.find?_some hf] at this
        cases this
    · intro err herr
      rw [hget] at herr
      cases herr
  | none =>
    rw [hf] at hget
    simp only [Option.none_bind] at hget
    refine ⟨?_, ?_, ?_, ?_⟩
    · intro e2 he2
      cases he2
    · intro id2 h2
      rw [hget] at h2
      split at h2 <;> cases h2
    · constructor
      · intro _ e he
        have := List.find?_eq_none.mp hf e he
        simpa using this
      · intro _
        rw [hget]
        split <;> exact ⟨_, rfl⟩
    · intro err herr
      rw [hget] at herr
      by_cases hlen : interfaceName.length > 0
      · rw [if_pos hlen] at herr
        cases herr
        refine ⟨_, rfl, ⟨"Failed to find the tap device in registry with specified ComponentId '",
          "' and InterfaceName '" ++ interfaceName
            ++ "', TAP driver may be not installed or you may have specified an interface name that doesn't exist",
          ?_⟩, fun _ =>
          ⟨"Failed to find the tap device in registry with specified ComponentId '"
            ++ componentID ++ "' and InterfaceName '",
            "', TAP driver may be not installed or you may have specified an interface name that doesn't exist",
            ?_⟩⟩
        · simp only [String.append_assoc]
        · simp only [String.append_assoc]
      · rw [if_neg hlen] at herr
        cases herr
        refine ⟨_, rfl, ⟨"Failed to find the tap device in registry with specified ComponentId '",
          "', TAP driver may be not installed", rfl⟩, fun hne => ?_⟩
        exact absurd ((string_length_pos_iff interfaceName).mpr hne) hlen

/-- C7 amended, at a concrete registry: two adapters share the component
identifier, only the second is named `"Ethernet 2"`, and its instance
identifier is the one returned. -/
theorem getdeviceid_first_accepted_witness :
    ∃ e ∈ regEntries registryMissingInstance ["0000", "0001"],
      e.ComponentId = some "tap0901" ∧ e.NetCfgInstanceId = some "B-1" ∧
        ("Ethernet 2" ≠ "" → e.Name = some "Ethernet 2") :=
  (getdeviceid_first_accepted registryMissingInstance "tap0901" "Ethernet 2"
    { GetStringValue := fun _ => .error ErrNotExist
      ReadSubKeyNames := .ok ["0000", "0001"] } ["0000", "0001"] rfl rfl).2.1 "B-1" rfl

/-! ## openDev: the handle on the failure paths -/

/-- `setTUN` only issues device-control calls. -/
theorem setTUN_trace (w : World) (file : Nat) (network : String) :
    ∀ ev ∈ (setTUN w file network).2, Event.isIoctlOn file ev := by
  unfold setTUN
  repeat' first | split | (dsimp only)
  all_goals simp [Event.isIoctlOn]

/-- `setDHCP` only issues device-control calls. -/
theorem setDHCP_trace (w : World) (file : Nat) (network dhcpserver : String) :
    ∀ ev ∈ (setDHCP w file network dhcpserver).2, Event.isIoctlOn file ev := by
  unfold setDHCP
  repeat' first | split | (dsimp only)
  all_goals simp [Event.isIoctlOn]

/-- `setDHCPDNS` only issues device-control calls. -/
theorem setDHCPDNS_trace (w : World) (file : Nat) (dns1 dns2 : String) :
    ∀ ev ∈ (setDHCPDNS w file dns1 dns2).2, Event.isIoctlOn file ev := by
  unfold setDHCPDNS
  repeat' first | split | (dsimp only)
  all_goals simp [Event.isIoctlOn]

/-- `setStatus` issues one device-control call and does not panic. -/
theorem setStatus_trace (w : World) (file : Nat) (status : Bool) :
    (∀ ev ∈ (setStatus w file status).2, Event.isIoctlOn file ev) ∧
      (setStatus w file status).1 ≠ Outcome.panic := by
  unfold setStatus
  dsimp only
  cases w.DeviceIoControl file tap_ioctl_set_media_status
    (if status = true then [0, 0, 0, 0].set 0 1 else [0, 0, 0, 0]) <;>
    simp [Event.isIoctlOn]

/-- The TUN configuration block only issues device-control calls. -/
theorem configureTUN_trace (w : World) (config : Config) (file : Nat) :
    ∀ ev ∈ (configureTUN w config file).2, Event.isIoctlOn file ev := by
  have h1 := setTUN_trace w file config.PlatformSpecificParams.Network
  have h2 := setDHCP_trace w file config.PlatformSpecificParams.Network
    config.PlatformSpecificParams.DHCPServer
  have h3 := setDHCPDNS_trace w file config.PlatformSpecificParams.DNS1
    config.PlatformSpecificParams.DNS2
  unfold configureTUN
  split
  · split
    · rename_i t1 heq; rw [heq] at h1; exact h1
    · rename_i e t1 heq; rw [heq] at h1; exact h1
    · rename_i t1 heq
      rw [heq] at h1
      split
      · split
        · rename_i t2 heq2
          rw [heq2] at h2
          intro ev hev
          rcases List.mem_append.mp hev with h | h
          · exact h1 ev h
          · exact h2 ev h
        · rename_i e t2 heq2
          rw [heq2] at h2
          intro ev hev
          rcases List.mem_append.mp hev with h | h
          · exact h1 ev h
          · exact h2 ev h
        · rename_i t2 heq2
          rw [heq2] at h2
          split
          all_goals
            rename_i heq3
            rw [heq3] at h3
            intro ev hev
            rcases List.mem_append.mp hev with h | h
            · rcases List.mem_append.mp h with h | h
              · exact h1 ev h
              · exact h2 ev h
            · exact h3 ev h
      · exact h1
  · intro ev hev; cases hev

/-- The TUN block returns the error of the first of `setTUN`, `setDHCP` (when
DHCP is requested) and `setDHCPDNS` that returns one. -/
theorem configureTUN_failure (w : World) (config : Config) (file : Nat) (e : GoError)
    (htun : config.DeviceType = TUN)
    (h : (setTUN w file config.PlatformSpecificParams.Network).1 = Outcome.ret (some e) ∨
      ((setTUN w file config.PlatformSpecificParams.Network).1 = Outcome.ret none ∧
        config.PlatformSpecificParams.IsDHCP = true ∧
        ((setDHCP w file config.PlatformSpecificParams.Network
            config.PlatformSpecificParams.DHCPServer).1 = Outcome.ret (some e) ∨
          ((setDHCP w file config.PlatformSpecificParams.Network
              config.PlatformSpecificParams.DHCPServer).1 = Outcome.ret none ∧
            (setDHCPDNS w file config.PlatformSpecificParams.DNS1
              config.PlatformSpecificParams.DNS2).1 = Outcome.ret (some e))))) :
    (configureTUN w config file).1 = Outcome.ret (some e) := by
  unfold configureTUN
  rw [if_pos htun]
  rcases hx : setTUN w file config.PlatformSpecificParams.Network with ⟨o1, t1⟩
  rcases hy : setDHCP w file config.PlatformSpecificParams.Network
    config.PlatformSpecificParams.DHCPServer with ⟨o2, t2⟩
  rcases hz : setDHCPDNS w file config.PlatformSpecificParams.DNS1
    config.PlatformSpecificParams.DNS2 with ⟨o3, t3⟩
  rw [hx, hy, hz] at h
  simp only at h
  rcases h with h | ⟨h1, hd, h | ⟨h2, h3⟩⟩
  · subst h; rfl
  · subst h1 h; simp only [hd, if_true]
  · subst h1 h2 h3; simp only [hd, if_true]

/-- The body of `openDev` only issues device-control calls on `file`, and when
it is left by a panic the named result `err` is nil. -/
theorem openDevBody_frame (w : World) (config : Config) (file : Nat)
    (err : Option GoError) :
    (∀ ev ∈ (openDevBody w config file err).trace, Event.isIoctlOn file ev) ∧
      ((openDevBody w config file err).panicked = true →
        (openDevBody w config file err).err = none) := by
  have hc := configureTUN_trace w config file
  have hs := (setStatus_trace w file true).1
  unfold openDevBody
  split
  · simp
  · dsimp only
    split
    · simp [Event.isIoctlOn]
    · split
      · simp [Event.isIoctlOn]
      · split
        · simp [Event.isIoctlOn]
        · split
          · rename_i t1 heq
            rw [heq] at hc
            refine ⟨?_, fun _ => rfl⟩
            intro ev hev
            rcases List.mem_append.mp hev with h | h
            · simp only [List.mem_singleton] at h; subst h; simp [Event.isIoctlOn]
            · exact hc ev h
          · rename_i e t1 heq
            rw [heq] at hc
            refine ⟨?_, fun h => by cases h⟩
            intro ev hev
            rcases List.mem_append.mp hev with h | h
            · simp only [List.mem_singleton] at h; subst h; simp [Event.isIoctlOn]
            · exact hc ev h
          · rename_i t1 heq
            rw [heq] at hc
            have key : ∀ t2, (∀ ev ∈ t2, Event.isIoctlOn file ev) →
                ∀ ev ∈ [Event.ioctl file tap_win_ioctl_get_mac [0, 0, 0, 0, 0, 0]] ++ t1 ++ t2,
                  Event.isIoctlOn file ev := by
              intro t2 h2 ev hev
              rcases List.mem_append.mp hev with h | h
              · rcases List.mem_append.mp h with h | h
                · simp only [List.mem_singleton] at h; subst h; simp [Event.isIoctlOn]
                · exact hc ev h
              · exact h2 ev h
            split
            · rename_i t2 heq2
              rw [heq2] at hs
              exact ⟨key t2 hs, fun _ => rfl⟩
            · rename_i e t2 heq2
              rw [heq2] at hs
              exact ⟨key t2 hs, fun h => by cases h⟩
            · rename_i t2 heq2
              rw [heq2] at hs
              split
              · exact ⟨key t2 hs, fun h => by cases h⟩
              · split
                · exact ⟨key t2 hs, fun h => by cases h⟩
                · exact ⟨key t2 hs, fun h => by cases h⟩

/-- Once `CreateFile` has given the handle `file`, `openDev` is its body
followed by the deferred function. -/
theorem openDev_opened (w : World) (config : Config) (deviceid pathp : String) (file : Nat)
    (hid : getdeviceid w config.PlatformSpecificParams.ComponentID
      config.PlatformSpecificParams.Name = .ok deviceid)
    (hutf : UTF16PtrFromString ("\\\\.\\Global\\" ++ deviceid ++ ".tap") = .ok pathp)
    (hfile : w.CreateFile pathp = .ok file) :
    openDev w config = runDeferred file (openDevBody w config file none) := by
  unfold openDev
  simp only [hid, hutf, hfile]

/-- A failing `openDev` whose handle was opened ends with the one
`syscall.Close` of that handle. -/
theorem runDeferred_failure (file : Nat) (f : Frame)
    (hp : f.panicked = true → f.err = none) (herr : (runDeferred file f).err ≠ none) :
    (runDeferred file f).trace = f.trace ++ [Event.close file] := by
  unfold runDeferred at herr ⊢
  simp only at herr ⊢
  have hnp : f.panicked = false := by
    cases h : f.panicked with
    | false => rfl
    | true => exact absurd (hp h) herr
  simp [hnp, herr]

/-- The search of `openDev` for the interface name fails exactly when no
interface has a hardware address of at least six bytes that starts with the
six bytes of `mac`. -/
theorem findIfceName_eq_none (mac : List Nat) (ifces : List NetInterface) :
    findIfceName mac ifces = none ↔
      ∀ v ∈ ifces, ¬ (6 ≤ v.HardwareAddr.length ∧ v.HardwareAddr.take 6 = mac.take 6) := by
  induction ifces with
  | nil => simp [findIfceName]
  | cons v ifces ih =>
    unfold findIfceName
    by_cases h1 : v.HardwareAddr.length < 6
    · rw [if_pos h1, ih]
      simp only [List.mem_cons, forall_eq_or_imp]
      constructor
      · intro h
        exact ⟨fun hv => absurd hv.1 (by omega), h⟩
      · intro h
        exact h.2
    · rw [if_neg h1]
      by_cases h2 : v.HardwareAddr.take 6 = mac.take 6
      · rw [if_pos h2]
        simp only [List.mem_cons, forall_eq_or_imp]
        constructor
        · intro h; cases h
        · intro h
          exact absurd ⟨by omega, h2⟩ h.1
      · rw [if_neg h2, ih]
        simp only [List.mem_cons, forall_eq_or_imp]
        constructor
        · intro h
          exact ⟨fun hv => h2 hv.2, h⟩
        · intro h
          exact h.2

/-- A returned error together with a non-nil interface only comes from the
failure of `net.Interfaces()`. -/
theorem openDevBody_partial (w : World) (config : Config) (file : Nat)
    (err : Option GoError) (he : (openDevBody w config file err).err ≠ none)
    (hi : (openDevBody w config file err).ifce ≠ none) :
    ∃ e, w.Interfaces = .error e := by
  unfold openDevBody at he hi
  repeat' first | split at he | (dsimp only at he)
  all_goals first
    | (exact absurd rfl he)
    | simp_all

/-- Every set-up failure makes the body of `openDev` leave with a non-nil
`err`. -/
theorem openDevBody_setupFailure (w : World) (config : Config) (file : Nat)
    (h : SetupFailure w config file) : (openDevBody w config file none).err ≠ none := by
  unfold openDevBody
  rcases hc : configureTUN w config file with ⟨o1, t1⟩
  rcases hs : setStatus w file true with ⟨o2, t2⟩
  cases h with
  | macQuery e hmac => simp [hmac]
  | readContext out e hmac hro => simp [hmac, hro]
  | writeContext out ro e hmac hro hwo => simp [hmac, hro, hwo]
  | tunConfig out ro wo e hmac hro hwo htun h1 =>
    have hcfg := configureTUN_failure w config file e htun (Or.inl h1)
    rw [hc] at hcfg
    simp only at hcfg
    subst hcfg
    simp [hmac, hro, hwo]
  | dhcpConfig out ro wo e hmac hro hwo htun h1 hdhcp h2 =>
    have hcfg := configureTUN_failure w config file e htun (Or.inr ⟨h1, hdhcp, Or.inl h2⟩)
    rw [hc] at hcfg
    simp only at hcfg
    subst hcfg
    simp [hmac, hro, hwo]
  | dnsConfig out ro wo e hmac hro hwo htun h1 hdhcp h2 h3 =>
    have hcfg := configureTUN_failure w config file e htun
      (Or.inr ⟨h1, hdhcp, Or.inr ⟨h2, h3⟩⟩)
    rw [hc] at hcfg
    simp only at hcfg
    subst hcfg
    simp [hmac, hro, hwo]
  | linkUp out ro wo e hmac hro hwo hcfg hup =>
    rw [hc] at hcfg
    rw [hs] at hup
    simp only at hcfg hup
    subst hcfg hup
    simp [hmac, hro, hwo]
  | interfaces out ro wo e hmac hro hwo hcfg hup hifs =>
    rw [hc] at hcfg
    rw [hs] at hup
    simp only at hcfg hup
    subst hcfg hup
    simp [hmac, hro, hwo, hifs]

/-- When `setTUN` panics, the TUN block panics. -/
theorem configureTUN_panic (w : World) (config : Config) (file : Nat)
    (htun : config.DeviceType = TUN)
    (h : (setTUN w file config.PlatformSpecificParams.Network).1 = Outcome.panic) :
    (configureTUN w config file).1 = Outcome.panic := by
  unfold configureTUN
  rw [if_pos htun]
  rcases hx : setTUN w file config.PlatformSpecificParams.Network with ⟨o1, t1⟩
  rw [hx] at h
  simp only at h
  subst h
  rfl

/-- A panic of the TUN configuration leaves the body of `openDev` by a panic,
with the named result `err` nil and the interface already assigned. -/
theorem openDevBody_setupPanic (w : World) (config : Config) (file : Nat)
    (h : SetupPanic w config file) :
    (openDevBody w config file none).panicked = true ∧
      (openDevBody w config file none).err = none ∧
      (openDevBody w config file none).ifce ≠ none := by
  unfold openDevBody
  rcases hc : configureTUN w config file with ⟨o1, t1⟩
  cases h with
  | tunConfig out ro wo hmac hro hwo htun h1 =>
    have hcfg := configureTUN_panic w config file htun h1
    rw [hc] at hcfg
    simp only at hcfg
    subst hcfg
    simp [hmac, hro, hwo]

/-- When the body of `openDev` is left by a panic with `err` nil, the deferred
function closes the handle once, in its `recover()` branch. -/
theorem runDeferred_panic (file : Nat) (f : Frame) (hp : f.panicked = true)
    (he : f.err = none) :
    (runDeferred file f).trace = f.trace ++ [Event.close file] ∧
      (runDeferred file f).err = none := by
  unfold runDeferred
  simp [hp, he]

/-- C8, as stated, fails: on a machine where no interface has the hardware
address of the device, `openDev` opens handle 7, fails with
`errIfceNameNotFound`, and the last thing it does is to close handle 7. -/
theorem openDev_name_not_found_counterexample :
    (tapMachine (.ok otherIfces)).CreateFile "\\\\.\\Global\\B-1.tap" = .ok 7 ∧
    (openDev (tapMachine (.ok otherIfces)) tapConfig).err = some errIfceNameNotFound ∧
    (openDev (tapMachine (.ok otherIfces)) tapConfig).trace =
      [Event.ioctl 7 tap_win_ioctl_get_mac [0, 0, 0, 0, 0, 0],
        Event.ioctl 7 tap_ioctl_set_media_status [1, 0, 0, 0], Event.close 7] := by
  refine ⟨rfl, by decide, by decide⟩

/-- C8, amended: when `openDev` has opened the device handle and every set-up
step up to the enumeration of the OS interfaces succeeds, but no interface has
a hardware address that starts with the six bytes of the queried MAC, `openDev`
returns a nil interface and the dedicated error `errIfceNameNotFound`, and the
handle is closed before the error is returned, as on every other set-up
failure. -/
theorem openDev_name_not_found_closes (w : World) (config : Config)
    (deviceid pathp : String) (file : Nat) (out : List Nat) (ro wo : Overlapped)
    (ifces : List NetInterface)
    (hid : getdeviceid w config.PlatformSpecificParams.ComponentID
      config.PlatformSpecificParams.Name = .ok deviceid)
    (hutf : UTF16PtrFromString ("\\\\.\\Global\\" ++ deviceid ++ ".tap") = .ok pathp)
    (hfile : w.CreateFile pathp = .ok file)
    (hmac : w.DeviceIoControl file tap_win_ioctl_get_mac [0, 0, 0, 0, 0, 0] = .ok out)
    (hro : newOverlapped w 0 = .ok ro) (hwo : newOverlapped w 1 = .ok wo)
    (hcfg : (configureTUN w config file).1 = Outcome.ret none)
    (hup : (setStatus w file true).1 = Outcome.ret none)
    (hifs : w.Interfaces = .ok ifces)
    (hno : ∀ v ∈ ifces, ¬ (6 ≤ v.HardwareAddr.length ∧
      v.HardwareAddr.take 6 = (goCopy [0, 0, 0, 0, 0, 0] out).take 6)) :
    (openDev w config).err = some errIfceNameNotFound ∧
    (openDev w config).ifce = none ∧
    ∃ calls, (openDev w config).trace = calls ++ [Event.close file] ∧
      ∀ ev ∈ calls, Event.isIoctlOn file ev := by
  have hopen := openDev_opened w config deviceid pathp file hid hutf hfile
  have hframe := openDevBody_frame w config file none
  have hfind := (findIfceName_eq_none (goCopy [0, 0, 0, 0, 0, 0] out) ifces).mpr hno
  have hbody : (openDevBody w config file none).err = some errIfceNameNotFound ∧
      (openDevBody w config file none).ifce = none := by
    unfold openDevBody
    rcases hc : configureTUN w config file with ⟨o1, t1⟩
    rcases hs : setStatus w file true with ⟨o2, t2⟩
    rw [hc] at hcfg
    rw [hs] at hup
    simp only at hcfg hup
    subst hcfg hup
    simp only [hmac, hro, hwo, hc, hs, hifs, hfind, and_self]
  have herr : (openDev w config).err = some errIfceNameNotFound := by
    rw [hopen]; exact hbody.1
  refine ⟨herr, ?_, (openDevBody w config file none).trace, ?_, hframe.1⟩
  · rw [hopen]; exact hbody.2
  · rw [hopen]
    apply runDeferred_failure file _ hframe.2
    rw [← hopen, herr]
    exact Option.some_ne_none _

/-- C8 amended, on the machine where no interface has the hardware address of
the device: the error is `errIfceNameNotFound` and the trace ends with the
close of handle 7. -/
theorem openDev_name_not_found_closes_witness :
    (openDev (tapMachine (.ok otherIfces)) tapConfig).err = some errIfceNameNotFound ∧
    (openDev (tapMachine (.ok otherIfces)) tapConfig).ifce = none ∧
    ∃ calls, (openDev (tapMachine (.ok otherIfces)) tapConfig).trace =
        calls ++ [Event.close 7] ∧ ∀ ev ∈ calls, Event.isIoctlOn 7 ev :=
  openDev_name_not_found_closes (tapMachine (.ok otherIfces)) tapConfig "B-1"
    "\\\\.\\Global\\B-1.tap" 7 [0, 255, 1, 2, 3, 4] { HEvent := 1 } { HEvent := 2 }
    otherIfces (by rfl) (by rfl) (by rfl) (by rfl) (by rfl) (by rfl) (by rfl) (by rfl)
    (by rfl) (by decide)

/-- C9: once the device handle is opened, every way `openDev` fails ends with
exactly one close of that handle, after device-control calls only: every return
with a non-nil error (closed by the `err != nil` branch of the deferred
function) and every panic of the body (closed by its `recover()` branch).
Every set-up failure is one of the two: the MAC query, either completion
context, the TUN, DHCP or DHCP DNS configuration, the link-up and the
interface enumeration return a non-nil error, and a TUN configuration that
panics returns none; in each case the handle is closed. -/
theorem openDev_failure_closes_handle (w : World) (config : Config)
    (deviceid pathp : String) (file : Nat)
    (hid : getdeviceid w config.PlatformSpecificParams.ComponentID
      config.PlatformSpecificParams.Name = .ok deviceid)
    (hutf : UTF16PtrFromString ("\\\\.\\Global\\" ++ deviceid ++ ".tap") = .ok pathp)
    (hfile : w.CreateFile pathp = .ok file) :
    ((openDev w config).err ≠ none ∨ (openDevBody w config file none).panicked = true →
      ∃ calls, (openDev w config).trace = calls ++ [Event.close file] ∧
        ∀ ev ∈ calls, Event.isIoctlOn file ev) ∧
    (SetupFailure w config file → (openDev w config).err ≠ none) ∧
    (SetupPanic w config file →
      (openDevBody w config file none).panicked = true ∧ (openDev w config).err = none) ∧
    (SetupFailure w config file ∨ SetupPanic w config file →
      ∃ calls, (openDev w config).trace = calls ++ [Event.close file] ∧
        ∀ ev ∈ calls, Event.isIoctlOn file ev) := by
  have hopen := openDev_opened w config deviceid pathp file hid hutf hfile
  have hframe := openDevBody_frame w config file none
  have hclose : (openDev w config).err ≠ none ∨
      (openDevBody w config file none).panicked = true →
      ∃ calls, (openDev w config).trace = calls ++ [Event.close file] ∧
        ∀ ev ∈ calls, Event.isIoctlOn file ev := by
    intro h
    refine ⟨(openDevBody w config file none).trace, ?_, hframe.1⟩
    rcases h with herr | hp
    · rw [hopen] at herr ⊢
      exact runDeferred_failure file _ hframe.2 herr
    · rw [hopen]
      exact (runDeferred_panic file _ hp (hframe.2 hp)).1
  have hfail : SetupFailure w config file → (openDev w config).err ≠ none := by
    intro hf
    rw [hopen]
    exact openDevBody_setupFailure w config file hf
  have hpanic : SetupPanic w config file →
      (openDevBody w config file none).panicked = true ∧ (openDev w config).err = none := by
    intro hp
    have hb := openDevBody_setupPanic w config file hp
    refine ⟨hb.1, ?_⟩
    rw [hopen]
    exact (runDeferred_panic file _ hb.1 hb.2.1).2
  refine ⟨hclose, hfail, hpanic, ?_⟩
  rintro (hf | hp)
  · exact hclose (Or.inl (hfail hf))
  · exact hclose (Or.inr (hpanic hp).1)

/-- C9 at concrete inputs: the TUN configuration returns an error on the IPv6
network `fe80::1/64` and panics on `::ffff:192.168.56.2/64`; in both runs
`openDev` ends with the close of handle 7. -/
theorem openDev_failure_closes_handle_witness :
    (SetupFailure (tapMachine (.ok otherIfces)) tunConfigV6 7 ∧
      ∃ calls, (openDev (tapMachine (.ok otherIfces)) tunConfigV6).trace =
        calls ++ [Event.close 7] ∧ ∀ ev ∈ calls, Event.isIoctlOn 7 ev) ∧
    (SetupPanic (tapMachine (.ok otherIfces)) tunConfigMapped 7 ∧
      (openDev (tapMachine (.ok otherIfces)) tunConfigMapped).err = none ∧
      ∃ calls, (openDev (tapMachine (.ok otherIfces)) tunConfigMapped).trace =
        calls ++ [Event.close 7] ∧ ∀ ev ∈ calls, Event.isIoctlOn 7 ev) :=
  have hfail : SetupFailure (tapMachine (.ok otherIfces)) tunConfigV6 7 :=
    .tunConfig [0, 255, 1, 2, 3, 4] { HEvent := 1 } { HEvent := 2 }
      (.fmt "Provided network(fe80::1/64) is not a valid IPv4 address")
      (by rfl) (by rfl) (by rfl) (by rfl) (by decide)
  have hpanic : SetupPanic (tapMachine (.ok otherIfces)) tunConfigMapped 7 :=
    .tunConfig [0, 255, 1, 2, 3, 4] { HEvent := 1 } { HEvent := 2 }
      (by rfl) (by rfl) (by rfl) (by rfl) (by decide)
  have h := openDev_failure_closes_handle (tapMachine (.ok otherIfces)) tunConfigV6 "B-1"
    "\\\\.\\Global\\B-1.tap" 7 (by rfl) (by rfl) (by rfl)
  have h2 := openDev_failure_closes_handle (tapMachine (.ok otherIfces)) tunConfigMapped
    "B-1" "\\\\.\\Global\\B-1.tap" 7 (by rfl) (by rfl) (by rfl)
  ⟨⟨hfail, h.2.2.2 (Or.inl hfail)⟩,
    ⟨hpanic, (h2.2.2.1 hpanic).2, h2.2.2.2 (Or.inr hpanic)⟩⟩

/-- C10, the failing input: `net.Interfaces()` fails after every other step of
the set-up succeeded.  `openDev` returns the error together with a non-nil
interface, whose handle 7 it has closed. -/
theorem openDev_interfaces_error_partial :
    (openDev (tapMachine (.error (.fmt "route ip+net: access denied"))) tapConfig).err =
      some (.fmt "route ip+net: access denied") ∧
    (openDev (tapMachine (.error (.fmt "route ip+net: access denied"))) tapConfig).ifce =
      some { isTAP := true,
             ReadWriteCloser := { fd := 7, ro := { HEvent := 1 }, wo := { HEvent := 2 } },
             fd := 7, name := "" } ∧
    (openDev (tapMachine (.error (.fmt "route ip+net: access denied"))) tapConfig).trace =
      [Event.ioctl 7 tap_win_ioctl_get_mac [0, 0, 0, 0, 0, 0],
        Event.ioctl 7 tap_ioctl_set_media_status [1, 0, 0, 0], Event.close 7] := by
  refine ⟨by decide, by decide, by decide⟩

end Water
